import Mathlib

/-!
Verification development for the Cloudflare Python worker in
`src/cloudflare/worker.py` (anonymous upvote counter with a signed-cookie
"already voted" token, a per-slug vote record stored in a key-value store,
a maintained slug index, and a periodically rebuilt "popular posts" cache).

The worker is shallowly embedded: every Python helper is translated to a
Lean function of the same name (leading underscores dropped).  Points at
which the worker calls into the platform or the Python standard library are
modelled explicitly:

* the KV namespace becomes an association-list state `St` together with a
  set of keys whose writes fail (to model `put` raising) and a log of the
  successful writes;
* `json.loads` / `json.dumps` are implemented as an executable JSON parser
  and serializer over a `Json` value type (numbers are modelled as
  unbounded integers, matching Python `int`; float literals are treated as
  unparsable, which coincides with the worker's observable behaviour at
  top level because a non-`dict` parse falls through to the legacy-integer
  branch);
* the cryptographic digests `hmac.new(..., sha256).hexdigest()` and
  `hashlib.sha1(...).hexdigest()` and the stdlib URL-path extraction
  `urlparse(loc).path` are abstracted as the `Stdlib` record of opaque
  string functions supplied to the handlers (theorems that depend on digest
  shape take the hypothesis that digests contain no `|`, true of any hex
  digest);
* request parsing (`_extract_slug_from_query`, `_read_upvote_payload`,
  `_site_origin_from_url`, `_extract_query_first`) is represented by a
  `Req` record carrying the extracted values, and the raw `Cookie` header,
  which is parsed by the translated `_parse_cookies`;
* `time.time()` is a `now : Nat` parameter, `secrets.token_hex(64)` is the
  `genToken` field of `Env`, and the results of `kv.list()` and of the
  sitemap `fetch` are the fields of `RebuildIO`.

String primitives (`strip`, `split`, `isdigit`, `int(...)`, slicing) are
implemented over `List Char` so that all definitions reduce in the kernel.
-/

set_option maxRecDepth 8000

/-- Python whitespace characters recognised by `str.strip()` (ASCII part). -/
def py_ws (c : Char) : Bool :=
  c = ' ' || c = '\t' || c = '\n' || c = '\r' || c = '\x0b' || c = '\x0c'

/-- Drop from the right of a list while a predicate holds. -/
def drop_right_while (p : Char → Bool) (l : List Char) : List Char :=
  (l.reverse.dropWhile p).reverse

/-- Model of Python `str.strip()` (whitespace strip on both ends). -/
def py_strip (s : String) : String :=
  ⟨drop_right_while py_ws (s.data.dropWhile py_ws)⟩

/-- Model of Python `str.isdigit()` restricted to ASCII digits:
nonempty and all characters are `0`-`9`. -/
def py_isdigit (l : List Char) : Bool :=
  !l.isEmpty && l.all Char.isDigit

/-- Numeric value of an ASCII digit string (most significant first). -/
def py_digits_to_nat (l : List Char) : Nat :=
  l.foldl (fun a c => a * 10 + (c.toNat - 48)) 0

/-- Model of Python `int(s)` on strings: optional surrounding whitespace,
optional sign, then a nonempty run of ASCII digits; anything else raises
(`none` here).  (Digit-grouping underscores and non-ASCII digits are not
modelled.) -/
def py_int_of_string (s : String) : Option Int :=
  let l := (py_strip s).data
  match l with
  | [] => none
  | '-' :: rest => if py_isdigit rest then some (-(py_digits_to_nat rest : Int)) else none
  | '+' :: rest => if py_isdigit rest then some (py_digits_to_nat rest : Int) else none
  | _ => if py_isdigit l then some (py_digits_to_nat l : Int) else none

/-- Decimal rendering of a natural number, digit characters most
significant first.  The first argument is fuel (structural recursion keeps
the function kernel-reducible); `nat_repr` supplies enough. -/
def nat_repr_go : Nat → Nat → List Char
  | 0, _ => []
  | Nat.succ fuel, n =>
    if n < 10 then [Char.ofNat (48 + n % 10)]
    else nat_repr_go fuel (n / 10) ++ [Char.ofNat (48 + n % 10)]

/-- Model of Python `str(n)` for `n : Nat`. -/
def nat_repr (n : Nat) : String := ⟨nat_repr_go (n + 1) n⟩

/-- Model of Python `str(n)` for `n : Int`. -/
def int_repr (n : Int) : String :=
  if n < 0 then "-" ++ nat_repr n.natAbs else nat_repr n.natAbs

/-- Split a character list at every occurrence of a separator character;
models Python `str.split(sep)` for a one-character separator. -/
def split_char (sep : Char) : List Char → List (List Char)
  | [] => [[]]
  | c :: rest =>
    if c = sep then [] :: split_char sep rest
    else
      match split_char sep rest with
      | [] => [[c]]
      | g :: gs => (c :: g) :: gs

/-- Order-preserving de-duplication (first occurrence wins), with an
accumulator of already-seen elements; models the `seen` sets used by the
worker. -/
def dedup_aux (seen : List String) : List String → List String
  | [] => []
  | x :: xs => if seen.contains x then dedup_aux seen xs else x :: dedup_aux (x :: seen) xs

/-- Order-preserving de-duplication, first occurrence wins. -/
def dedup_keep (l : List String) : List String := dedup_aux [] l

/-- JSON values as produced by Python `json.loads`: `null`, booleans,
integers (floats are not modelled), strings, arrays and objects.  Object
fields are kept in textual order; lookups take the last occurrence of a
key, matching Python dict construction. -/
inductive Json where
  | null
  | bool (b : Bool)
  | num (n : Int)
  | str (s : String)
  | arr (elems : List Json)
  | obj (fields : List (String × Json))

/-- Python `dict.get(k)` over decoded object fields: the last binding of a
key wins (later duplicate keys overwrite earlier ones). -/
def obj_get (fields : List (String × Json)) (k : String) : Option Json :=
  (fields.reverse.find? (fun p => p.1 = k)).map (·.2)

/-- A JSON value read as a Python `int` by an `isinstance(x, int)` check:
Python booleans are instances of `int` (`True` is `1`, `False` is `0`). -/
def json_as_py_int : Option Json → Option Int
  | some (Json.num n) => some n
  | some (Json.bool b) => some (if b then 1 else 0)
  | _ => none

/-- JSON whitespace accepted between tokens by `json.loads`. -/
def json_ws (c : Char) : Bool :=
  c = ' ' || c = '\t' || c = '\n' || c = '\r'

/-- ASCII hex digit test (both cases), as accepted by `\uXXXX` escapes. -/
def is_hex_digit (c : Char) : Bool :=
  c.isDigit || (97 ≤ c.toNat && c.toNat ≤ 102) || (65 ≤ c.toNat && c.toNat ≤ 70)

/-- Value of an ASCII hex digit. -/
def hex_val (c : Char) : Nat :=
  if c.toNat ≥ 97 then c.toNat - 87
  else if c.toNat ≥ 65 then c.toNat - 55
  else c.toNat - 48

/-- Parse the body of a JSON string literal (the opening quote already
consumed); returns the decoded characters and the rest of the input after
the closing quote.  `\uXXXX` escapes are decoded, pairing surrogates;
a lone surrogate is rejected (Lean `Char` cannot carry one). -/
def jparse_string : List Char → Option (List Char × List Char)
  | [] => none
  | '"' :: rest => some ([], rest)
  | '\\' :: esc =>
    match esc with
    | '"' :: r => (jparse_string r).map (fun p => ('"' :: p.1, p.2))
    | '\\' :: r => (jparse_string r).map (fun p => ('\\' :: p.1, p.2))
    | '/' :: r => (jparse_string r).map (fun p => ('/' :: p.1, p.2))
    | 'b' :: r => (jparse_string r).map (fun p => ('\x08' :: p.1, p.2))
    | 'f' :: r => (jparse_string r).map (fun p => ('\x0c' :: p.1, p.2))
    | 'n' :: r => (jparse_string r).map (fun p => ('\n' :: p.1, p.2))
    | 'r' :: r => (jparse_string r).map (fun p => ('\r' :: p.1, p.2))
    | 't' :: r => (jparse_string r).map (fun p => ('\t' :: p.1, p.2))
    | 'u' :: a :: b :: c :: d :: r =>
      if (is_hex_digit a && is_hex_digit b && is_hex_digit c && is_hex_digit d) then
        let n := ((hex_val a * 16 + hex_val b) * 16 + hex_val c) * 16 + hex_val d
        if n < 0xd800 then
          (jparse_string r).map (fun p => (Char.ofNat n :: p.1, p.2))
        else if 0xe000 ≤ n then
          (jparse_string r).map (fun p => (Char.ofNat n :: p.1, p.2))
        else
          -- high surrogate: require a following low surrogate
          match r with
          | '\\' :: 'u' :: a2 :: b2 :: c2 :: d2 :: r2 =>
            if (is_hex_digit a2 && is_hex_digit b2 && is_hex_digit c2 && is_hex_digit d2) then
              let m := ((hex_val a2 * 16 + hex_val b2) * 16 + hex_val c2) * 16 + hex_val d2
              if n < 0xdc00 ∧ 0xdc00 ≤ m ∧ m < 0xe000 then
                let cp := 0x10000 + (n - 0xd800) * 0x400 + (m - 0xdc00)
                (jparse_string r2).map (fun p => (Char.ofNat cp :: p.1, p.2))
              else none
            else none
          | _ => none
      else none
    | _ => none
  | c :: rest =>
    if c.toNat < 0x20 then none
    else (jparse_string rest).map (fun p => (c :: p.1, p.2))

/-- Parse a JSON integer literal (optional minus sign, no leading zeros,
no fraction or exponent — a fraction or exponent makes the whole parse
fail, see the module comment on floats). -/
def jparse_int : List Char → Option (Int × List Char)
  | l =>
    let (neg, l') := match l with
      | '-' :: r => (true, r)
      | _ => (false, l)
    match l' with
    | [] => none
    | c :: rest =>
      if !c.isDigit then none
      else
        let digits := c :: rest.takeWhile Char.isDigit
        let rest' := rest.dropWhile Char.isDigit
        -- leading-zero rule: "0" is fine, "0xyz" digits are not
        if c = '0' ∧ digits.length > 1 then none
        else
          match rest' with
          | '.' :: _ => none
          | 'e' :: _ => none
          | 'E' :: _ => none
          | _ =>
            let v : Int := py_digits_to_nat digits
            some (if neg then -v else v, rest')

mutual

/-- Recursive-descent JSON value parser (the `Nat` is fuel; the top-level
entry point supplies more fuel than the input length, so fuel never runs
out on inputs it is called with). -/
def jparse_value : Nat → List Char → Option (Json × List Char)
  | 0, _ => none
  | Nat.succ fuel, l =>
    match l.dropWhile json_ws with
    | [] => none
    | '"' :: rest => (jparse_string rest).map (fun p => (Json.str ⟨p.1⟩, p.2))
    | '[' :: rest => jparse_array fuel rest
    | '\x7b' :: rest => jparse_object fuel rest
    | 'n' :: 'u' :: 'l' :: 'l' :: rest => some (Json.null, rest)
    | 't' :: 'r' :: 'u' :: 'e' :: rest => some (Json.bool true, rest)
    | 'f' :: 'a' :: 'l' :: 's' :: 'e' :: rest => some (Json.bool false, rest)
    | l' => (jparse_int l').map (fun p => (Json.num p.1, p.2))

/-- Parse the items of a JSON array after the opening bracket. -/
def jparse_array : Nat → List Char → Option (Json × List Char)
  | 0, _ => none
  | Nat.succ fuel, l =>
    match l.dropWhile json_ws with
    | ']' :: rest => some (Json.arr [], rest)
    | l' =>
      match jparse_value fuel l' with
      | none => none
      | some (v, rest) => jparse_array_rest fuel [v] rest

/-- Parse `, value`* `]` continuations of a JSON array. -/
def jparse_array_rest : Nat → List Json → List Char → Option (Json × List Char)
  | 0, _, _ => none
  | Nat.succ fuel, acc, l =>
    match l.dropWhile json_ws with
    | ']' :: rest => some (Json.arr acc.reverse, rest)
    | ',' :: rest =>
      match jparse_value fuel rest with
      | none => none
      | some (v, rest') => jparse_array_rest fuel (v :: acc) rest'
    | _ => none

/-- Parse the members of a JSON object after the opening brace. -/
def jparse_object : Nat → List Char → Option (Json × List Char)
  | 0, _ => none
  | Nat.succ fuel, l =>
    match l.dropWhile json_ws with
    | '\x7d' :: rest => some (Json.obj [], rest)
    | '"' :: rest =>
      match jparse_string rest with
      | none => none
      | some (k, rest') =>
        match (rest'.dropWhile json_ws) with
        | ':' :: rest'' =>
          match jparse_value fuel rest'' with
          | none => none
          | some (v, rest₃) => jparse_object_rest fuel [(⟨k⟩, v)] rest₃
        | _ => none
    | _ => none

/-- Parse `, "key": value`* `}` continuations of a JSON object. -/
def jparse_object_rest : Nat → List (String × Json) → List Char → Option (Json × List Char)
  | 0, _, _ => none
  | Nat.succ fuel, acc, l =>
    match l.dropWhile json_ws with
    | '\x7d' :: rest => some (Json.obj acc.reverse, rest)
    | ',' :: rest =>
      match rest.dropWhile json_ws with
      | '"' :: rest' =>
        match jparse_string rest' with
        | none => none
        | some (k, rest'') =>
          match (rest''.dropWhile json_ws) with
          | ':' :: rest₃ =>
            match jparse_value fuel rest₃ with
            | none => none
            | some (v, rest₄) => jparse_object_rest fuel ((⟨k⟩, v) :: acc) rest₄
          | _ => none
      | _ => none
    | _ => none

end

/-- Model of Python `json.loads` (raising = `none`): parse one value,
then require only whitespace to remain. -/
def json_loads (s : String) : Option Json :=
  match jparse_value (2 * s.data.length + 2) s.data with
  | none => none
  | some (v, rest) => if (rest.dropWhile json_ws).isEmpty then some v else none

/-- Lower-case hex digit for a value below 16. -/
def hex_digit (n : Nat) : Char := Char.ofNat (if n < 10 then 48 + n else 87 + n)

/-- Four-digit lower-case hex rendering of a value below 0x10000. -/
def hex4 (n : Nat) : List Char :=
  [hex_digit (n / 4096 % 16), hex_digit (n / 256 % 16), hex_digit (n / 16 % 16), hex_digit (n % 16)]

/-- Escape one character the way Python `json.dumps` (with its default
`ensure_ascii=True`) does inside a string literal. -/
def json_escape_char (c : Char) : List Char :=
  if c = '"' then ['\\', '"']
  else if c = '\\' then ['\\', '\\']
  else if c = '\n' then ['\\', 'n']
  else if c = '\r' then ['\\', 'r']
  else if c = '\t' then ['\\', 't']
  else if c = '\x08' then ['\\', 'b']
  else if c = '\x0c' then ['\\', 'f']
  else if c.toNat < 0x20 then '\\' :: 'u' :: hex4 c.toNat
  else if c.toNat < 0x7f then [c]
  else if c.toNat < 0x10000 then '\\' :: 'u' :: hex4 c.toNat
  else
    let v := c.toNat - 0x10000
    ('\\' :: 'u' :: hex4 (0xd800 + v / 0x400)) ++ ('\\' :: 'u' :: hex4 (0xdc00 + v % 0x400))

/-- Serialize a string the way `json.dumps` does. -/
def json_dump_string (s : String) : String :=
  ⟨'"' :: (s.data.flatMap json_escape_char) ++ ['"']⟩

mutual

/-- Model of Python `json.dumps` with its default separators
(`", "` between items, `": "` after keys, `ensure_ascii=True`). -/
def json_dumps : Json → String
  | Json.null => "null"
  | Json.bool b => if b then "true" else "false"
  | Json.num n => int_repr n
  | Json.str s => json_dump_string s
  | Json.arr elems => "[" ++ json_dumps_list elems ++ "]"
  | Json.obj fields => "\x7b" ++ json_dumps_fields fields ++ "\x7d"

/-- Comma-joined serialization of array items. -/
def json_dumps_list : List Json → String
  | [] => ""
  | [x] => json_dumps x
  | x :: xs => json_dumps x ++ ", " ++ json_dumps_list xs

/-- Comma-joined serialization of object members. -/
def json_dumps_fields : List (String × Json) → String
  | [] => ""
  | [(k, v)] => json_dump_string k ++ ": " ++ json_dumps v
  | (k, v) :: xs => json_dump_string k ++ ": " ++ json_dumps v ++ ", " ++ json_dumps_fields xs

end

/-- Find the index of the first occurrence of `needle` in `hay`
(model of Python `str.find`, restricted to found-or-none). -/
def find_sub : List Char → List Char → Option Nat
  | hay, needle =>
    match hay with
    | [] => if needle.isEmpty then some 0 else none
    | _ :: t => if needle.isPrefixOf hay then some 0 else (find_sub t needle).map (· + 1)

/-- Prefix test on strings (model of Python `str.startswith`). -/
def str_starts_with (s pre : String) : Bool := pre.data.isPrefixOf s.data

/-- Model of Python `str.upper()` (ASCII). -/
def py_upper (s : String) : String := ⟨s.data.map Char.toUpper⟩

/-- Model of Python `str.rstrip("/")`: drop every trailing `/`. -/
def rstrip_slashes (s : String) : String := ⟨drop_right_while (· = '/') s.data⟩

/-- `_normalize_slug`: strip, force a leading `/`, and drop trailing
slashes unless the whole slug is `/`. -/
def normalize_slug (path : String) : String :=
  let p := py_strip path
  if p = "" then ""
  else
    let p := if str_starts_with p "/" then p else "/" ++ p
    if p = "/" then p else rstrip_slashes p

/-
Constants from the top of `worker.py`.  The Python names
`KV_KEY_PREFIX` and `COOKIE_PREFIX` are rendered as `KV_KEY_START` and
`COOKIE_NAME_START` here.
-/

def MAX_AGE_SECONDS : Nat := 15552000

def KV_KEY_START : String := "post:"

def COOKIE_NAME_START : String := "upvote_"

def POPULAR_CACHE_KEY : String := "popular_cache:v1"

def POPULAR_CACHE_MAX_DEFAULT : Int := 50

def POPULAR_REFRESH_SECONDS : Nat := 21600

def POPULAR_SITE_ORIGIN_KEY : String := "popular_site_origin:v1"

def POPULAR_SLUG_INDEX_KEY : String := "popular_slug_index:v1"

def POPULAR_SITEMAP_PATH : String := "/sitemap.xml"

def POPULAR_SITEMAP_MAX_URLS : Nat := 5000

def POPULAR_SLUG_INDEX_MAX : Nat := 5000

/-- Python standard-library functions the worker calls whose internals are
outside the embedding: the two hex digests and `urlparse(...).path`.
Theorems that need a property of a digest (e.g. that a hex digest contains
no `|`) take it as a hypothesis. -/
structure Stdlib where
  hmacSha256Hex : String → String → String
  sha1Hex : String → String
  urlPath : String → String

/-- The KV namespace: an association list (`st_put` prepends, `st_get`
takes the first hit), a set of keys whose `put` raises (fault injection for
the worker's `try/except` paths; `get` is modelled as infallible), and a
log of the successful writes in order. -/
structure St where
  store : List (String × String)
  failKeys : List String
  writes : List (String × String)

/-- `kv.get(key)` :  `None` when the key is absent. -/
def st_get (st : St) (k : String) : Option String :=
  (st.store.find? (fun p => p.1 = k)).map (·.2)

/-- `kv.put(key, value)` : `none` models the call raising (key in
`failKeys`); on success the store is updated and the write logged. -/
def st_put (st : St) (k v : String) : Option St :=
  if st.failKeys.contains k then none
  else some ⟨(k, v) :: st.store, st.failKeys, st.writes ++ [(k, v)]⟩

/-- A `put` wrapped in `try: ... except Exception: pass`. -/
def try_put (st : St) (k v : String) : St := (st_put st k v).getD st

/-- `_hash_slug` + `_cookie_name`: cookie names are
`"upvote_" + sha1(slug).hexdigest()`. -/
def cookie_name (lib : Stdlib) (slug : String) : String :=
  COOKIE_NAME_START ++ lib.sha1Hex slug

/-- `_sign_cookie`: HMAC-SHA256 hex digest of `slug|timestamp` under the
secret. -/
def sign_cookie (lib : Stdlib) (slug timestamp secret : String) : String :=
  lib.hmacSha256Hex secret (slug ++ "|" ++ timestamp)

/-- The `slug|timestamp|signature` cookie value built by `_build_cookie`
at time `now`. -/
def build_cookie_value (lib : Stdlib) (slug secret : String) (now : Nat) : String :=
  slug ++ "|" ++ nat_repr now ++ "|" ++ sign_cookie lib slug (nat_repr now) secret

/-- `_build_cookie`: the full `Set-Cookie` header value. -/
def build_cookie (lib : Stdlib) (slug secret : String) (now : Nat) : String :=
  cookie_name lib slug ++ "=" ++ build_cookie_value lib slug secret now
    ++ "; Max-Age=15552000; Path=/; HttpOnly; Secure; SameSite=Lax"

/-- `_parse_cookies`: split the `Cookie` header on `;`, keep items with an
`=`, split each at the first `=`, strip both halves.  Represented as the
assignment list; lookups take the last binding (dict overwrite). -/
def parse_cookies (header_value : Option String) : List (String × String) :=
  match header_value with
  | none => []
  | some s =>
    if s = "" then []
    else
      (split_char ';' s.data).foldl
        (fun acc item =>
          if item.contains '=' then
            let name := item.takeWhile (· ≠ '=')
            let value := (item.dropWhile (· ≠ '=')).tail
            acc ++ [(py_strip ⟨name⟩, py_strip ⟨value⟩)]
          else acc)
        []

/-- Python dict lookup over an assignment list: last binding wins. -/
def dict_find (l : List (String × String)) (k : String) : Option String :=
  (l.reverse.find? (fun p => p.1 = k)).map (·.2)

/-- `_is_cookie_valid`: exactly three `|`-separated segments, first equals
the slug, second a digit string whose age is within `MAX_AGE_SECONDS`,
third the expected signature (`hmac.compare_digest` behaves as equality).
-/
def is_cookie_valid (lib : Stdlib) (slug secret cookie_value : String) (now : Nat) : Bool :=
  match split_char '|' cookie_value.data with
  | [cookie_slug, timestamp_str, provided_sig] =>
    if (⟨cookie_slug⟩ : String) ≠ slug then false
    else if !py_isdigit timestamp_str then false
    else if (now : Int) - (py_digits_to_nat timestamp_str : Int) > (MAX_AGE_SECONDS : Int) then false
    else sign_cookie lib slug ⟨timestamp_str⟩ secret = (⟨provided_sig⟩ : String)
  | _ => false

/-- `_validate_slug`: nonempty and starting with `/`. -/
def validate_slug (slug : String) : Bool :=
  !slug.data.isEmpty && str_starts_with slug "/"

/-- `_kv_key`: the per-slug record key `post:<slug>`. -/
def kv_key (slug : String) : String := KV_KEY_START ++ slug

/-- `_clamp_int`. -/
def clamp_int (value min_value max_value : Int) : Int :=
  max min_value (min max_value value)

/-- `_parse_int`: `int(value)` with a default for `None` and for
unparsable strings. -/
def parse_int (value : Option String) (default : Int) : Int :=
  match value with
  | none => default
  | some s => (py_int_of_string s).getD default

/-- `_sanitize_text`: strip, empty stays empty, truncate to `max_len`. -/
def sanitize_text (value : String) (max_len : Nat) : String :=
  let v := py_strip value
  if v = "" then "" else ⟨v.data.take max_len⟩

/-- `_sanitize_permalink`: strip; must start with `/` (relative), else
dropped; truncated to 2048. -/
def sanitize_permalink (value : String) : String :=
  let v := py_strip value
  if v = "" then ""
  else if !str_starts_with v "/" then ""
  else ⟨v.data.take 2048⟩

/-- `_sanitize_date_iso`: strict `YYYY-MM-DD` shape or dropped. -/
def sanitize_date_iso (value : String) : String :=
  let v := py_strip value
  if v = "" then ""
  else if v.data.length ≠ 10 then ""
  else if v.data.getD 4 ' ' ≠ '-' ∨ v.data.getD 7 ' ' ≠ '-' then ""
  else
    let y := v.data.take 4
    let m := (v.data.drop 5).take 2
    let d := (v.data.drop 8).take 2
    if py_isdigit y && py_isdigit m && py_isdigit d then v else ""

/-- `_date_key`: linearize a well-formed `YYYY-MM-DD` date into
`year*10000 + month*100 + day`; anything malformed maps to `0`. -/
def date_key (date_iso : String) : Nat :=
  let v := py_strip date_iso
  if v.data.length ≠ 10 then 0
  else if v.data.getD 4 ' ' ≠ '-' ∨ v.data.getD 7 ' ' ≠ '-' then 0
  else
    let y := v.data.take 4
    let m := (v.data.drop 5).take 2
    let d := (v.data.drop 8).take 2
    if py_isdigit y && py_isdigit m && py_isdigit d then
      py_digits_to_nat y * 10000 + py_digits_to_nat m * 100 + py_digits_to_nat d
    else 0

/-- The structured per-slug vote record (`_default_post_record` gives the
field defaults). -/
structure PostRecord where
  count : Int
  title : String
  permalink : String
  dateISO : String
  updated_at : Int
deriving DecidableEq

/-- `_default_post_record`. -/
def default_post_record (count : Int) : PostRecord :=
  ⟨count, "", "", "", 0⟩

/-- The record as the JSON object `json.dumps` receives (Python dicts keep
insertion order, so the key order is fixed). -/
def record_to_json (r : PostRecord) : Json :=
  Json.obj [("count", Json.num r.count), ("title", Json.str r.title),
    ("permalink", Json.str r.permalink), ("dateISO", Json.str r.dateISO),
    ("updated_at", Json.num r.updated_at)]

/-- `_parse_post_record`: decode a stored raw value into
`(record, needs_migration)`.  Absent or blank raw gives the zero default;
a JSON object gives a sanitized structured record (`count` taken as-is
when it is an int — Python `bool` counts as `int` — else pushed through
`_parse_int(str(count))`); any other raw value takes the legacy-integer
path `(_default_post_record(_parse_int(raw)), True)`. -/
def parse_post_record (raw? : Option String) : PostRecord × Bool :=
  match raw? with
  | none => (default_post_record 0, false)
  | some raw0 =>
    let raw := py_strip raw0
    if raw = "" then (default_post_record 0, false)
    else
      match json_loads raw with
      | some (Json.obj fields) =>
        let count : Int :=
          match obj_get fields "count" with
          | some (Json.num n) => n
          | some (Json.bool b) => if b then 1 else 0
          | some (Json.str s) => (py_int_of_string s).getD 0
          | some _ => 0
          | none => 0
        let title :=
          match obj_get fields "title" with
          | some (Json.str t) => sanitize_text t 256
          | _ => ""
        let permalink :=
          match obj_get fields "permalink" with
          | some (Json.str p) => sanitize_permalink p
          | _ => ""
        let dateISO :=
          match obj_get fields "dateISO" with
          | some (Json.str d) => sanitize_date_iso d
          | _ => ""
        let updated_at : Int := (json_as_py_int (obj_get fields "updated_at")).getD 0
        (⟨count, title, permalink, dateISO, updated_at⟩, false)
      | _ => (default_post_record ((py_int_of_string raw).getD 0), true)

/-- `_merge_meta_into_record`: apply sanitized nonempty overrides; a real
change sets `changed` and bumps `updated_at` to `now`. -/
def merge_meta_into_record (record : PostRecord) (title permalink date_iso : String)
    (now : Nat) : PostRecord × Bool :=
  let title := sanitize_text title 256
  let permalink := sanitize_permalink permalink
  let date_iso := sanitize_date_iso date_iso
  let (record, changed) :=
    if title ≠ "" ∧ record.title ≠ title then ({record with title := title}, true)
    else (record, false)
  let (record, changed) :=
    if permalink ≠ "" ∧ record.permalink ≠ permalink then ({record with permalink := permalink}, true)
    else (record, changed)
  let (record, changed) :=
    if date_iso ≠ "" ∧ record.dateISO ≠ date_iso then ({record with dateISO := date_iso}, true)
    else (record, changed)
  if changed then ({record with updated_at := (now : Int)}, true) else (record, false)

/-- The worker's environment bindings and per-request nondeterminism:
the `UPVOTE_COOKIE_SECRET` and `POPULAR_CACHE_MAX` bindings, presence of
the `UPVOTES` KV and `ASSETS` bindings, and the value
`secrets.token_hex(64)` would produce this request. -/
structure Env where
  cookieSecret : Option String
  popularCacheMax : Option String
  hasKV : Bool
  hasAssets : Bool
  genToken : String

/-- `_resolve_cookie_secret`: env binding if a nonempty string, else the
stored `cookie_secret` if truthy, else generate, persist and return a new
token (an empty string if that persist raises). -/
def resolve_cookie_secret (env : Env) (st : St) : String × St :=
  let fromEnv := match env.cookieSecret with
    | some s => if s ≠ "" then some s else none
    | none => none
  match fromEnv with
  | some s => (s, st)
  | none =>
    match st_get st "cookie_secret" with
    | some stored =>
      if stored ≠ "" then (stored, st)
      else
        match st_put st "cookie_secret" env.genToken with
        | some st' => (env.genToken, st')
        | none => ("", st)
    | none =>
      match st_put st "cookie_secret" env.genToken with
      | some st' => (env.genToken, st')
      | none => ("", st)

/-- `_fetch_post_record`: load and decode the per-slug record; when the
legacy form was found, stamp `updated_at` and persist the structured form
(best-effort, failure swallowed). -/
def fetch_post_record (st : St) (slug : String) (now : Nat) : PostRecord × St :=
  let raw := st_get st (kv_key slug)
  let record := (parse_post_record raw).1
  let needs_migration := (parse_post_record raw).2
  if needs_migration then
    let record := {record with updated_at := (now : Int)}
    (record, try_put st (kv_key slug) (json_dumps (record_to_json record)))
  else (record, st)

/-- `_write_post_record`: re-sanitize every field and persist; `none`
models the `put` raising. -/
def write_post_record (st : St) (slug : String) (record : PostRecord) : Option St :=
  let record : PostRecord :=
    ⟨record.count, sanitize_text record.title 256, sanitize_permalink record.permalink,
      sanitize_date_iso record.dateISO, record.updated_at⟩
  st_put st (kv_key slug) (json_dumps (record_to_json record))

/-- `_load_slug_index`: stored JSON list of strings, each normalized and
validated, de-duplicated preserving order; anything malformed gives `[]`.
-/
def load_slug_index (st : St) : List String :=
  match st_get st POPULAR_SLUG_INDEX_KEY with
  | none => []
  | some raw =>
    if raw = "" then []
    else
      match json_loads raw with
      | some (Json.arr items) =>
        let out := items.filterMap (fun item =>
          match item with
          | Json.str s =>
            let slug := normalize_slug s
            if validate_slug slug then some slug else none
          | _ => none)
        dedup_keep out
      | _ => []

/-- The sanitization `_store_slug_index` applies before persisting:
normalize, validate and de-duplicate the given slugs. -/
def clean_slugs (slugs : List String) : List String :=
  dedup_keep (slugs.filterMap (fun s =>
    let slug := normalize_slug s
    if validate_slug slug then some slug else none))

/-- `_store_slug_index` (continued): persist the cleaned JSON list
(failure swallowed). -/
def store_slug_index (st : St) (slugs : List String) : St :=
  try_put st POPULAR_SLUG_INDEX_KEY (json_dumps (Json.arr ((clean_slugs slugs).map Json.str)))

/-- `_add_slug_to_index`: no-op on invalid or already-indexed slugs, else
append and keep the most recent `POPULAR_SLUG_INDEX_MAX`. -/
def add_slug_to_index (st : St) (slug : String) : St :=
  let slug := normalize_slug slug
  if !validate_slug slug then st
  else
    let current := load_slug_index st
    if current.contains slug then st
    else
      let current := current ++ [slug]
      let current :=
        if current.length > POPULAR_SLUG_INDEX_MAX then
          current.drop (current.length - POPULAR_SLUG_INDEX_MAX)
        else current
      store_slug_index st current

/-- Loop of `_extract_sitemap_locs`: repeatedly find `<loc>...</loc>`
pairs, collect the stripped nonempty contents (the `Nat` is fuel; the
wrapper supplies more than the input length, and every iteration consumes
at least eleven characters). -/
def extract_locs_go : Nat → List Char → List String → List String
  | 0, _, acc => acc.reverse
  | Nat.succ fuel, xml, acc =>
    match find_sub xml "<loc>".data with
    | none => acc.reverse
    | some i =>
      let after := xml.drop (i + 5)
      match find_sub after "</loc>".data with
      | none => acc.reverse
      | some j =>
        let loc := py_strip ⟨after.take j⟩
        let acc := if loc ≠ "" then loc :: acc else acc
        extract_locs_go fuel (after.drop (j + 6)) acc

/-- `_extract_sitemap_locs`: the `<loc>...</loc>` contents of a sitemap
document, in order. -/
def extract_sitemap_locs (xml : String) : List String :=
  extract_locs_go (xml.data.length + 1) xml.data []

/-- `_slugs_from_sitemap`: normalize the URL paths of the `<loc>` entries,
keep the valid ones, de-duplicate preserving order, cap at
`POPULAR_SITEMAP_MAX_URLS`. -/
def slugs_from_sitemap (lib : Stdlib) (xml : String) : List String :=
  (dedup_keep ((extract_sitemap_locs xml).filterMap (fun loc =>
    let slug := normalize_slug (lib.urlPath loc)
    if validate_slug slug then some slug else none))).take POPULAR_SITEMAP_MAX_URLS

/-- One inbound HTTP request, carrying the values the worker extracts from
it: `method` and URL `path`; the results of `_extract_slug_from_query` and
`_extract_query_first(url, ...)` on the query string; the result of
`_site_origin_from_url`; the raw `Cookie` header; and the four fields
`_read_upvote_payload` yields (absent or non-string fields read as `""`).
-/
structure Req where
  method : String
  path : String
  querySlug : String
  queryTitle : String
  queryPermalink : String
  queryDateISO : String
  queryLimit : String
  siteOrigin : String
  cookieHeader : Option String
  payloadSlug : String
  payloadTitle : String
  payloadPermalink : String
  payloadDateISO : String

/-- `_get_cookie_value`. -/
def get_cookie_value (lib : Stdlib) (req : Req) (slug : String) : Option String :=
  dict_find (parse_cookies req.cookieHeader) (cookie_name lib slug)

/-- The response bodies the worker can produce (CORS and content-type
headers are not modelled; the `Set-Cookie` header is). -/
inductive RespBody where
  | empty
  | error (message : String)
  | vote (slug : String) (upvote_count : Int) (upvoted : Bool)
  | popular (generated_at source scanned_keys indexed_slugs : Json) (items : List Json)
  | assets

/-- An HTTP response: status, body payload, optional `Set-Cookie`. -/
structure Resp where
  status : Nat
  body : RespBody
  setCookie : Option String

/-- `_error_response` (default status 400). -/
def error_response (message : String) (status : Nat) : Resp :=
  ⟨status, RespBody.error message, none⟩

/-- One entry of the popular items list. -/
structure PopItem where
  slug : String
  title : String
  permalink : String
  dateISO : String
  upvote_count : Int
deriving DecidableEq

/-- The popular-cache document `_rebuild_popular_cache` builds. -/
structure PopPayload where
  generated_at : Int
  source : String
  scanned_keys : Nat
  indexed_slugs : Nat
  items : List PopItem

/-- An item as the JSON object stored in the cache document. -/
def pop_item_to_json (it : PopItem) : Json :=
  Json.obj [("slug", Json.str it.slug), ("title", Json.str it.title),
    ("permalink", Json.str it.permalink), ("dateISO", Json.str it.dateISO),
    ("upvote_count", Json.num it.upvote_count)]

/-- The cache document as the JSON object handed to `json.dumps`. -/
def pop_payload_to_json (p : PopPayload) : Json :=
  Json.obj [("generated_at", Json.num p.generated_at), ("source", Json.str p.source),
    ("scanned_keys", Json.num (p.scanned_keys : Int)),
    ("indexed_slugs", Json.num (p.indexed_slugs : Int)),
    ("items", Json.arr (p.items.map pop_item_to_json))]

/-- The item built for a candidate slug in `_rebuild_popular_cache`:
missing permalink defaults to `slug + "/"` (or `/`), missing title to the
slug. -/
def mk_pop_item (slug : String) (record : PostRecord) : PopItem :=
  let title := record.title
  let permalink := record.permalink
  let date_iso := record.dateISO
  let permalink := if permalink = "" then (if slug ≠ "/" then slug ++ "/" else "/") else permalink
  let title := if title = "" then slug else title
  ⟨slug, title, permalink, date_iso, record.count⟩

/-- The per-candidate loop of `_rebuild_popular_cache`: load each record
(migrating legacy values as a side effect), drop non-positive counts,
collect items and the positive-count (`upvoted`) slugs, in order. -/
def rebuild_scan (now : Nat) : St → List String → List PopItem × List String × St
  | st, [] => ([], [], st)
  | st, slug :: rest =>
    let fetched := fetch_post_record st slug now
    if fetched.1.count ≤ 0 then rebuild_scan now fetched.2 rest
    else
      let rest_result := rebuild_scan now fetched.2 rest
      (mk_pop_item slug fetched.1 :: rest_result.1, slug :: rest_result.2.1, rest_result.2.2)

/-- The Python sort key `(upvote_count, _date_key(dateISO))`. -/
def pop_sort_key (it : PopItem) : Int × Nat :=
  (it.upvote_count, date_key it.dateISO)

/-- Lexicographic order on sort keys (Python tuple comparison). -/
def pop_key_le (p q : Int × Nat) : Prop :=
  p.1 < q.1 ∨ (p.1 = q.1 ∧ p.2 ≤ q.2)

instance pop_key_le_dec (p q : Int × Nat) : Decidable (pop_key_le p q) :=
  inferInstanceAs (Decidable (p.1 < q.1 ∨ (p.1 = q.1 ∧ p.2 ≤ q.2)))

/-- The ordering used to model `items.sort(key=..., reverse=True)`:
`a` may precede `b` iff `b`'s key is at most `a`'s.  The sort itself is
modelled by the stable `List.insertionSort` under this relation; Python's
sort is also stable under the same comparison, so the two agree
element-for-element. -/
def pop_rel (a b : PopItem) : Prop :=
  pop_key_le (pop_sort_key b) (pop_sort_key a)

instance pop_rel_dec : DecidableRel pop_rel :=
  fun a b => pop_key_le_dec (pop_sort_key b) (pop_sort_key a)

/-- Results of the two platform calls `_rebuild_popular_cache` makes that
are outside the store model: the key names `_kv_list_keys(kv, "post:")`
returns, and the body `_fetch_text(origin + "/sitemap.xml")` returns. -/
structure RebuildIO where
  listKeys : List String
  sitemapText : Option String

/-- The discovery tiers of `_rebuild_popular_cache` (lines 638-667):
KV key enumeration, else the slug index, else the sitemap when an origin
is known; returns `(source, slugs)`. -/
def rebuild_candidate_slugs (lib : Stdlib) (io : RebuildIO) (st : St)
    (site_origin : Option String) : String × List String :=
  let key_names := io.listKeys
  let (source, slugs) :=
    if !key_names.isEmpty then
      ("kv_list", key_names.filterMap (fun name =>
        if str_starts_with name KV_KEY_START then
          let slug := normalize_slug ⟨name.data.drop 5⟩
          if validate_slug slug then some slug else none
        else none))
    else ("slug_index", load_slug_index st)
  if slugs.isEmpty then
    let origin := match site_origin with
      | some s => py_strip s
      | none => ""
    let origin :=
      if origin = "" then
        match st_get st POPULAR_SITE_ORIGIN_KEY with
        | some stored => py_strip stored
        | none => ""
      else origin
    if origin ≠ "" then ("sitemap", slugs_from_sitemap lib (io.sitemapText.getD ""))
    else ("none", [])
  else (source, slugs)

/-- `_rebuild_popular_cache`: discover candidates, de-duplicate, load and
filter records, sort descending by `(count, date key)`, truncate, then
overwrite the slug index when any positive-count slug was found, and
persist the cache document.  The final cache `put` is not wrapped in
`try`, so its failure propagates: that is the `(none, st)` outcome. -/
def rebuild_popular_cache (lib : Stdlib) (env : Env) (io : RebuildIO) (st : St)
    (site_origin : Option String) (now : Nat) : Option PopPayload × St :=
  let max_items := (clamp_int (parse_int env.popularCacheMax POPULAR_CACHE_MAX_DEFAULT) 1 200).toNat
  let tier := rebuild_candidate_slugs lib io st site_origin
  let source := tier.1
  let candidates := dedup_keep tier.2
  let scanned := rebuild_scan now st candidates
  let items := scanned.1
  let upvoted_slugs := scanned.2.1
  let st := scanned.2.2
  let items := List.insertionSort pop_rel items
  let st := if upvoted_slugs.isEmpty then st else store_slug_index st upvoted_slugs
  let payload : PopPayload :=
    ⟨(now : Int), source, candidates.length, upvoted_slugs.length, items.take max_items⟩
  match st_put st POPULAR_CACHE_KEY (json_dumps (pop_payload_to_json payload)) with
  | none => (none, st)
  | some st' => (some payload, st')

/-- `_handle_get` (the `/api/upvote-info` handler): validate the slug,
read the cookie, load the record, opportunistically backfill metadata when
something changed and the count is positive, and answer with the count. -/
def handle_get (lib : Stdlib) (st : St) (req : Req) (secret : String) (now : Nat) : Resp × St :=
  let slug := req.querySlug
  if !validate_slug slug then
    (error_response "slug must start with '/' and not be empty" 400, st)
  else
    let upvoted := match get_cookie_value lib req slug with
      | some cv => cv ≠ "" && is_cookie_valid lib slug secret cv now
      | none => false
    let fetched := fetch_post_record st slug now
    let st := fetched.2
    let merged :=
      merge_meta_into_record fetched.1 req.queryTitle req.queryPermalink req.queryDateISO now
    let record := merged.1
    let changed := merged.2
    let count := record.count
    let st := if changed ∧ 0 < count then (write_post_record st slug record).getD st else st
    (⟨200, RespBody.vote slug count upvoted, none⟩, st)

/-- The slug `_handle_post` acts on: the payload slug when it is a
nonempty string, else the query-string slug. -/
def post_slug (req : Req) : String :=
  if req.payloadSlug = "" then req.querySlug else req.payloadSlug

/-- The `ALREADY_VOTED` test of `_handle_post`: a cookie is present,
truthy and verifies. -/
def post_already_voted (lib : Stdlib) (req : Req) (slug secret : String) (now : Nat) : Bool :=
  match get_cookie_value lib req slug with
  | some cv => cv ≠ "" && is_cookie_valid lib slug secret cv now
  | none => false

/-- `_handle_post` (the `/api/upvote` handler): validate the slug; with a
valid cookie only backfill metadata and echo the count; otherwise
increment, merge metadata, persist best-effort, index the slug, and set a
fresh cookie. -/
def handle_post (lib : Stdlib) (st : St) (req : Req) (secret : String) (now : Nat) : Resp × St :=
  let slug := post_slug req
  if !validate_slug slug then
    (error_response "slug must start with '/' and not be empty" 400, st)
  else if post_already_voted lib req slug secret now then
    let fetched := fetch_post_record st slug now
    let st := fetched.2
    let merged :=
      merge_meta_into_record fetched.1 req.payloadTitle req.payloadPermalink req.payloadDateISO now
    let record := merged.1
    let changed := merged.2
    let count := record.count
    let st := if changed ∧ 0 < count then (write_post_record st slug record).getD st else st
    (⟨200, RespBody.vote slug count true, none⟩, st)
  else
    let fetched := fetch_post_record st slug now
    let st := fetched.2
    let incremented := {fetched.1 with count := fetched.1.count + 1}
    let record :=
      (merge_meta_into_record incremented req.payloadTitle req.payloadPermalink req.payloadDateISO now).1
    let st := (write_post_record st slug record).getD st
    let count := record.count
    let st := add_slug_to_index st slug
    (⟨200, RespBody.vote slug count true, some (build_cookie lib slug secret now)⟩, st)

/-- `payload.get(key, default)` on a decoded JSON document (used on the
cached popular document, which is known to be an object at that point). -/
def json_get_d (j : Json) (k : String) (d : Json) : Json :=
  match j with
  | Json.obj fields => (obj_get fields k).getD d
  | _ => d

/-- The response assembly at the end of `_handle_popular` (lines 843-850),
shared by the cached and the just-rebuilt document. -/
def popular_response (payload : Json) (limit : Nat) : Resp :=
  let items := match json_get_d payload "items" Json.null with
    | Json.arr l => l
    | _ => []
  ⟨200, RespBody.popular (json_get_d payload "generated_at" (Json.num 0))
    (json_get_d payload "source" (Json.str ""))
    (json_get_d payload "scanned_keys" (Json.num 0))
    (json_get_d payload "indexed_slugs" (Json.num 0))
    (items.take limit), none⟩

/-- The staleness decision of `_handle_popular` (lines 827-838). -/
def popular_should_rebuild (payload? : Option Json) (site_origin : String) (now : Nat) : Bool :=
  match payload? with
  | some (Json.obj fields) =>
    match obj_get fields "items" with
    | some (Json.arr items) =>
      if items.length = 0 then
        let is_str_source := match obj_get fields "source" with
          | some (Json.str _) => true
          | _ => false
        let source_none := match obj_get fields "source" with
          | some (Json.str s) => s = "none"
          | _ => false
        if site_origin ≠ "" ∧ (!is_str_source || source_none) then true
        else
          match json_as_py_int (obj_get fields "generated_at") with
          | some g => decide ((now : Int) - g ≥ 600)
          | none => true
      else false
    | _ => true
  | _ => true

/-- `_handle_popular` (the `/api/popular` handler): clamp the requested
limit (default 5), remember the site origin, serve the cached document
unless the staleness policy demands a rebuild, and truncate the item list
to the limit.  `none` models the un-caught failure of the rebuild's final
cache write propagating out of the handler. -/
def handle_popular (lib : Stdlib) (env : Env) (io : RebuildIO) (st : St) (req : Req)
    (now : Nat) : Option Resp × St :=
  let limit := (clamp_int (parse_int (some req.queryLimit) 5) 1 50).toNat
  let site_origin := req.siteOrigin
  let st := if site_origin ≠ "" then try_put st POPULAR_SITE_ORIGIN_KEY site_origin else st
  let payload? : Option Json :=
    match st_get st POPULAR_CACHE_KEY with
    | some raw => if raw ≠ "" then json_loads raw else none
    | none => none
  if popular_should_rebuild payload? site_origin now then
    match rebuild_popular_cache lib env io st (if site_origin ≠ "" then some site_origin else none) now with
    | (none, st') => (none, st')
    | (some payload, st') => (some (popular_response (pop_payload_to_json payload) limit), st')
  else
    (some (popular_response (payload?.getD Json.null) limit), st)

/-- `Default.fetch`: the worker entrypoint.  `OPTIONS` short-circuits; a
missing KV binding or unresolvable secret is a 500; then the three API
routes, then the static-asset fallback. -/
def worker_fetch (lib : Stdlib) (env : Env) (io : RebuildIO) (st : St) (req : Req)
    (now : Nat) : Option Resp × St :=
  let method := py_upper req.method
  if method = "OPTIONS" then (some ⟨204, RespBody.empty, none⟩, st)
  else if !env.hasKV then (some (error_response "Server misconfiguration" 500), st)
  else
    let resolved := resolve_cookie_secret env st
    let secret := resolved.1
    let st := resolved.2
    if secret = "" then (some (error_response "Server misconfiguration" 500), st)
    else if req.path = "/api/upvote-info" ∧ method = "GET" then
      let hg := handle_get lib st req secret now
      (some hg.1, hg.2)
    else if req.path = "/api/upvote" ∧ method = "POST" then
      let hp := handle_post lib st req secret now
      (some hp.1, hp.2)
    else if req.path = "/api/popular" ∧ method = "GET" then
      handle_popular lib env io st req now
    else if env.hasAssets then (some ⟨200, RespBody.assets, none⟩, st)
    else (some (error_response "Not found" 404), st)

/-
Concrete fixtures used by closed counterexamples and witnesses.
`lib_stub` instantiates the abstract digest functions with constants: the
properties checked through it do not depend on digest internals.
-/

/-- A concrete `Stdlib` instantiation for closed evaluations. -/
def lib_stub : Stdlib := ⟨fun _ _ => "f00d", fun _ => "h1", fun _ => ""⟩

/-- An empty KV state. -/
def st_empty : St := ⟨[], [], []⟩

/-- A `GET /api/upvote-info` request whose query has the given slug and
nothing else. -/
def req_info (qs : String) : Req :=
  ⟨"GET", "/api/upvote-info", qs, "", "", "", "", "", none, "", "", "", ""⟩

/-- A `POST /api/upvote` request whose JSON payload has the given slug and
nothing else. -/
def req_vote (slug : String) : Req :=
  ⟨"POST", "/api/upvote", "", "", "", "", "", "", none, slug, "", "", ""⟩

/-- A `GET /api/popular` request with the given `limit` query value. -/
def req_popular (lim : String) : Req :=
  ⟨"GET", "/api/popular", "", "", "", "", lim, "", none, "", "", "", ""⟩

/-- An environment with no configured cookie secret (the worker will
generate and persist `genToken`). -/
def env_nosecret : Env := ⟨none, none, true, false, "tok"⟩

/-- Rebuild inputs with no listable keys and no sitemap. -/
def io_none : RebuildIO := ⟨[], none⟩

/-- A cached popular document with seven items, for the C10 witness. -/
def st_big : St :=
  ⟨[(POPULAR_CACHE_KEY, json_dumps (pop_payload_to_json ⟨0, "kv_list", 7, 7,
    [⟨"/a", "/a", "/a/", "", 3⟩, ⟨"/b", "/b", "/b/", "", 3⟩, ⟨"/c", "/c", "/c/", "", 2⟩,
     ⟨"/d", "/d", "/d/", "", 2⟩, ⟨"/e", "/e", "/e/", "", 1⟩, ⟨"/f", "/f", "/f/", "", 1⟩,
     ⟨"/g", "/g", "/g/", "", 1⟩]⟩))], [], []⟩

instance pop_rel_trans : IsTrans PopItem pop_rel :=
  ⟨by intro a b c hab hbc; unfold pop_rel pop_key_le at *; omega⟩
instance pop_rel_total : IsTotal PopItem pop_rel :=
  ⟨by intro a b; unfold pop_rel pop_key_le; omega⟩

/-- Records for the C6/C7 witnesses: three positive counts (two tied at 2
with different dates) and one legacy zero. -/
def st_recs : St :=
  ⟨[("post:/a", json_dumps (record_to_json ⟨2, "", "", "2024-01-05", 0⟩)),
    ("post:/b", json_dumps (record_to_json ⟨3, "", "", "", 0⟩)),
    ("post:/c", json_dumps (record_to_json ⟨2, "", "", "2024-03-01", 0⟩)),
    ("post:/z", "0")], [], []⟩
/-- Key enumeration for the C6/C7 witnesses. -/
def io_keys : RebuildIO := ⟨["post:/a", "post:/b", "post:/c", "post:/z"], none⟩

/-- A store whose slug index holds `/a` but with no positive-count
records, for the C7 counterexample. -/
def st_idx : St := ⟨[("popular_slug_index:v1", "[\"/a\"]")], [], []⟩

/-
Helper lemmas: the KV state, string primitives, `split_char` and
`nat_repr`.
-/

theorem kv_key_inj {a b : String} (h : kv_key a = kv_key b) : a = b := by
  have h2 := congrArg String.data h
  simp only [kv_key, KV_KEY_START, String.data_append] at h2
  exact String.ext ((List.append_right_inj _).mp h2)

theorem kv_key_ne_index (s : String) : kv_key s ≠ POPULAR_SLUG_INDEX_KEY := by
  intro h
  have h2 := congrArg String.data h
  simp only [kv_key, KV_KEY_START, String.data_append] at h2
  have h4 : (POPULAR_SLUG_INDEX_KEY : String).data
      = ['p', 'o', 'p', 'u', 'l', 'a', 'r', '_', 's', 'l', 'u', 'g', '_',
         'i', 'n', 'd', 'e', 'x', ':', 'v', '1'] := rfl
  rw [h4] at h2
  simp at h2

theorem st_put_get_self {st st' : St} {k v : String} (h : st_put st k v = some st') :
    st_get st' k = some v := by
  unfold st_put at h
  split at h
  · exact absurd h (by simp)
  · cases h
    simp [st_get, List.find?_cons_of_pos]

theorem st_put_get_ne {st st' : St} {k v k' : String} (h : st_put st k v = some st')
    (hne : k' ≠ k) : st_get st' k' = st_get st k' := by
  unfold st_put at h
  split at h
  · exact absurd h (by simp)
  · cases h
    unfold st_get
    rw [List.find?_cons_of_neg]
    simp [hne.symm]

theorem st_put_failKeys {st st' : St} {k v : String} (h : st_put st k v = some st') :
    st'.failKeys = st.failKeys := by
  unfold st_put at h
  split at h
  · exact absurd h (by simp)
  · cases h; rfl

theorem try_put_get_ne (st : St) (k v k' : String) (hne : k' ≠ k) :
    st_get (try_put st k v) k' = st_get st k' := by
  unfold try_put
  cases h : st_put st k v with
  | none => rfl
  | some st' => exact st_put_get_ne h hne

theorem try_put_failKeys (st : St) (k v : String) :
    (try_put st k v).failKeys = st.failKeys := by
  unfold try_put
  cases h : st_put st k v with
  | none => rfl
  | some st' => exact st_put_failKeys h

theorem try_put_of_fail {st : St} {k : String} (h : st.failKeys.contains k = true)
    (v : String) : try_put st k v = st := by
  unfold try_put st_put
  rw [h]
  rfl

theorem split_char_no_sep {sep : Char} : ∀ {l : List Char}, (∀ c ∈ l, c ≠ sep) →
    split_char sep l = [l]
  | [], _ => rfl
  | c :: rest, h => by
    simp only [split_char]
    rw [if_neg (h c (by simp))]
    rw [split_char_no_sep (fun x hx => h x (by simp [hx]))]

theorem split_char_sep_append {sep : Char} : ∀ {xs : List Char} (ys : List Char),
    (∀ c ∈ xs, c ≠ sep) →
    split_char sep (xs ++ sep :: ys) = xs :: split_char sep ys
  | [], ys, _ => by
    rw [List.nil_append]
    simp [split_char]
  | x :: xs, ys, h => by
    rw [List.cons_append]
    simp only [split_char]
    rw [if_neg (h x (by simp))]
    rw [split_char_sep_append ys (fun c hc => h c (by simp [hc]))]

theorem split_char_ne_nil (sep : Char) : ∀ (l : List Char), split_char sep l ≠ []
  | [] => by simp [split_char]
  | c :: rest => by
    simp only [split_char]
    split
    · simp
    · split <;> simp

theorem split_char_two_le {sep : Char} : ∀ {l : List Char}, sep ∈ l →
    2 ≤ (split_char sep l).length
  | c :: rest, h => by
    simp only [split_char]
    by_cases hc : c = sep
    · rw [if_pos hc]
      have := split_char_ne_nil sep rest
      simp only [List.length_cons]
      cases hs : split_char sep rest with
      | nil => exact absurd hs this
      | cons g gs => simp
    · rw [if_neg hc]
      have hmem : sep ∈ rest := by
        cases List.mem_cons.mp h with
        | inl h1 => exact absurd h1.symm hc
        | inr h2 => exact h2
      have ih := split_char_two_le hmem
      cases hs : split_char sep rest with
      | nil => exact absurd hs (split_char_ne_nil sep rest)
      | cons g gs =>
        rw [hs] at ih
        simpa using ih

theorem split_char_singleton {sep : Char} : ∀ {l x : List Char},
    split_char sep l = [x] → x = l
  | [], x, h => by
    simp only [split_char] at h
    simp at h
    exact h
  | c :: rest, x, h => by
    simp only [split_char] at h
    by_cases hc : c = sep
    · rw [if_pos hc] at h
      have h2 : split_char sep rest = [] := by
        cases h3 : split_char sep rest with
        | nil => rfl
        | cons g gs => rw [h3] at h; simp at h
      exact absurd h2 (split_char_ne_nil sep rest)
    · rw [if_neg hc] at h
      cases h3 : split_char sep rest with
      | nil => exact absurd h3 (split_char_ne_nil sep rest)
      | cons g gs =>
        rw [h3] at h
        have hgs : gs = [] := by
          have := congrArg List.length h
          simp at this
          exact this
        subst hgs
        have hg := split_char_singleton h3
        subst hg
        simpa using h.symm

theorem digit_char_spec (k : Nat) (h : k < 10) :
    (Char.ofNat (48 + k)).isDigit = true ∧ (Char.ofNat (48 + k)).toNat = 48 + k := by
  interval_cases k <;> exact ⟨by decide, by decide⟩

theorem nat_repr_go_digits : ∀ (fuel n : Nat), ∀ c ∈ nat_repr_go fuel n, c.isDigit = true
  | 0, n => by simp [nat_repr_go]
  | Nat.succ fuel, n => by
    simp only [nat_repr_go]
    split
    · intro c hc
      simp only [List.mem_singleton] at hc
      subst hc
      exact (digit_char_spec (n % 10) (by omega)).1
    · intro c hc
      rcases List.mem_append.mp hc with h1 | h2
      · exact nat_repr_go_digits fuel (n / 10) c h1
      · simp only [List.mem_singleton] at h2
        subst h2
        exact (digit_char_spec (n % 10) (by omega)).1

theorem nat_repr_go_ne_nil (fuel n : Nat) : nat_repr_go (fuel + 1) n ≠ [] := by
  simp only [nat_repr_go]
  split <;> simp

theorem py_digits_append (ds : List Char) (d : Char) :
    py_digits_to_nat (ds ++ [d]) = 10 * py_digits_to_nat ds + (d.toNat - 48) := by
  unfold py_digits_to_nat
  rw [List.foldl_append]
  simp [Nat.mul_comm]

theorem nat_repr_go_val : ∀ (fuel n : Nat), n < fuel →
    py_digits_to_nat (nat_repr_go fuel n) = n
  | 0, n, h => absurd h (by omega)
  | Nat.succ fuel, n, h => by
    simp only [nat_repr_go]
    split
    · rename_i h10
      unfold py_digits_to_nat
      simp only [List.foldl_cons, List.foldl_nil]
      rw [(digit_char_spec (n % 10) (by omega)).2]
      omega
    · rename_i h10
      have hdiv : n / 10 < n := Nat.div_lt_self (by omega) (by omega)
      rw [py_digits_append, nat_repr_go_val fuel (n / 10) (by omega)]
      rw [(digit_char_spec (n % 10) (by omega)).2]
      omega

theorem nat_repr_val (n : Nat) : py_digits_to_nat (nat_repr n).data = n :=
  nat_repr_go_val (n + 1) n (Nat.lt_succ_self n)

theorem nat_repr_isdigit (n : Nat) : py_isdigit (nat_repr n).data = true := by
  unfold py_isdigit nat_repr
  rw [Bool.and_eq_true]
  constructor
  · have := nat_repr_go_ne_nil n n
    simpa [List.isEmpty_iff] using this
  · rw [List.all_eq_true]
    intro c hc
    exact nat_repr_go_digits (n + 1) n c hc

theorem nat_repr_no_bar (n : Nat) : ∀ c ∈ (nat_repr n).data, c ≠ '|' := by
  intro c hc heq
  have := nat_repr_go_digits (n + 1) n c hc
  subst heq
  simp at this

theorem bar_string_data : ("|" : String).data = ['|'] := rfl

theorem build_cookie_value_data (lib : Stdlib) (slug secret : String) (t : Nat) :
    (build_cookie_value lib slug secret t).data
      = slug.data ++ '|' :: ((nat_repr t).data
          ++ '|' :: (sign_cookie lib slug (nat_repr t) secret).data) := by
  unfold build_cookie_value
  rw [String.data_append, String.data_append, String.data_append, String.data_append]
  rw [bar_string_data]
  simp

/-- Claim C2 (amended): for every slug that contains no `|` character and
every secret, a cookie issued at time `t` verifies at time `t + e` exactly
when the elapsed `e` is at most 180 days (`15552000` seconds) — so it
verifies immediately, keeps verifying up to 180 days, and fails strictly
after.  The digest function is abstract, with the hypothesis (true of hex
digests) that its output contains no `|`.  The restriction to `|`-free
slugs is what the counterexample forces: the claim as stated, over every
slug, is false. -/
theorem claim_C2_amended (lib : Stdlib) (slug secret : String) (t e : Nat)
    (hnb : ∀ s p c, c ∈ (lib.hmacSha256Hex s p).data → c ≠ '|')
    (hslug : ∀ c ∈ slug.data, c ≠ '|') :
    is_cookie_valid lib slug secret (build_cookie_value lib slug secret t) (t + e)
      = decide (e ≤ MAX_AGE_SECONDS) := by
  have hsig : ∀ c ∈ (sign_cookie lib slug (nat_repr t) secret).data, c ≠ '|' :=
    fun c hc => hnb _ _ c hc
  unfold is_cookie_valid
  rw [build_cookie_value_data, split_char_sep_append _ hslug,
    split_char_sep_append _ (nat_repr_no_bar t), split_char_no_sep hsig]
  dsimp only
  rw [if_neg (fun hcon => hcon rfl)]
  rw [nat_repr_isdigit]
  simp only [Bool.not_true, Bool.false_eq_true, if_false]
  rw [nat_repr_val]
  by_cases he : e ≤ MAX_AGE_SECONDS
  · rw [if_neg (by simp only [MAX_AGE_SECONDS] at he ⊢; push_cast; omega)]
    simp [he]
  · rw [if_pos (by simp only [MAX_AGE_SECONDS] at he ⊢; push_cast; omega)]
    simp [he]

theorem triple_concat_data (a b c : String) :
    (a ++ "|" ++ b ++ "|" ++ c).data = a.data ++ '|' :: (b.data ++ '|' :: c.data) := by
  rw [String.data_append, String.data_append, String.data_append, String.data_append]
  rw [bar_string_data]
  simp

/-- Soundness of verification: `true` forces the three-segment shape with
matching slug, digit timestamp within the window, and the expected
signature. -/
theorem cookie_sound (lib : Stdlib) (slug secret cv : String) (now : Nat)
    (hv : is_cookie_valid lib slug secret cv now = true) :
    ∃ ts sg : List Char,
      split_char '|' cv.data = [slug.data, ts, sg] ∧
      py_isdigit ts = true ∧
      (now : Int) - (py_digits_to_nat ts : Int) ≤ (MAX_AGE_SECONDS : Int) ∧
      (⟨sg⟩ : String) = sign_cookie lib slug (⟨ts⟩ : String) secret := by
  unfold is_cookie_valid at hv
  split at hv
  case h_2 => exact absurd hv (by simp)
  case h_1 cs ts sg heq =>
    split_ifs at hv with h1 h2 h3
    have hcs : cs = slug.data := congrArg String.data (not_not.mp h1)
    refine ⟨ts, sg, ?_, ?_, ?_, ?_⟩
    · rw [heq, hcs]
    · simpa using h2
    · omega
    · exact (of_decide_eq_true hv).symm

/-- Tampering: changing any one character of the signature segment of an
issued cookie makes verification return `false`. -/
theorem cookie_tamper (lib : Stdlib) (slug secret : String) (t now i : Nat) (c' : Char)
    (hslug : ∀ c ∈ slug.data, c ≠ '|')
    (hi : i < (sign_cookie lib slug (nat_repr t) secret).data.length)
    (hne : c' ≠ (sign_cookie lib slug (nat_repr t) secret).data.get ⟨i, hi⟩) :
    is_cookie_valid lib slug secret
      (slug ++ "|" ++ nat_repr t ++ "|"
        ++ (⟨(sign_cookie lib slug (nat_repr t) secret).data.set i c'⟩ : String)) now = false := by
  have hdata := triple_concat_data slug (nat_repr t)
    (⟨(sign_cookie lib slug (nat_repr t) secret).data.set i c'⟩ : String)
  by_cases hbar : '|' ∈ (sign_cookie lib slug (nat_repr t) secret).data.set i c'
  · have h2 := split_char_two_le hbar
    unfold is_cookie_valid
    rw [hdata, split_char_sep_append _ hslug, split_char_sep_append _ (nat_repr_no_bar t)]
    cases hs : split_char '|' ((sign_cookie lib slug (nat_repr t) secret).data.set i c') with
    | nil => exact absurd hs (split_char_ne_nil _ _)
    | cons g1 rest =>
      cases rest with
      | nil => rw [hs] at h2; simp at h2
      | cons g2 gs => rfl
  · have hnosep : ∀ c ∈ (sign_cookie lib slug (nat_repr t) secret).data.set i c', c ≠ '|' :=
      fun c hc heq => hbar (heq ▸ hc)
    unfold is_cookie_valid
    rw [hdata, split_char_sep_append _ hslug, split_char_sep_append _ (nat_repr_no_bar t),
      split_char_no_sep hnosep]
    dsimp only
    rw [if_neg (fun hcon => hcon rfl)]
    rw [nat_repr_isdigit]
    simp only [Bool.not_true, Bool.false_eq_true, if_false]
    split_ifs with hage
    · rfl
    · apply decide_eq_false
      intro heq
      have hd : (sign_cookie lib slug (nat_repr t) secret).data
          = (sign_cookie lib slug (nat_repr t) secret).data.set i c' := by
        have := congrArg String.data heq
        exact this
      have e1 : ((sign_cookie lib slug (nat_repr t) secret).data.set i c')[i]? = some c' :=
        List.getElem?_set_eq_of_lt c' hi
      rw [← hd] at e1
      rw [List.getElem?_eq_getElem hi] at e1
      have : c' = (sign_cookie lib slug (nat_repr t) secret).data.get ⟨i, hi⟩ := by
        rw [List.get_eq_getElem]
        exact (Option.some.injEq _ _ ▸ e1).symm
      exact hne this

/-- Claim C2 (counterexample): the claim quantifies over every slug, but a
slug containing `|` (reachable through the endpoints, which only require a
leading `/`) breaks it: a cookie issued for `/a|b` never verifies, even
immediately after issuance with zero elapsed time, because the extra `|`
makes the cookie split into four segments. -/
theorem claim_C2_counterexample :
    is_cookie_valid lib_stub "/a|b" "k" (build_cookie_value lib_stub "/a|b" "k" 0) 0 = false :=
  rfl

/-- Witness for the amended C2 at slug `/a`, secret `k`, issue time 5 and
elapsed time 0. -/
theorem claim_C2_witness :
    is_cookie_valid lib_stub "/a" "k" (build_cookie_value lib_stub "/a" "k" 5) (5 + 0)
      = decide ((0 : Nat) ≤ MAX_AGE_SECONDS) :=
  claim_C2_amended lib_stub "/a" "k" 5 0
    (fun _ _ => (by decide : ∀ c ∈ ("f00d" : String).data, c ≠ '|')) (by decide)

/-- Claim C3: verification fails closed.  First conjunct (soundness): a
`true` verification forces the cookie to split into exactly three
`|`-separated segments whose first is the slug, whose second is a numeric
timestamp no older than 180 days, and whose third is the HMAC-SHA256
signature of `slug|timestamp` under the secret.  Second conjunct
(tampering): changing any single character of the signature segment of an
issued cookie makes verification return `false`. -/
theorem claim_C3 (lib : Stdlib) (slug secret cv : String) (now t i : Nat) (c' : Char)
    (hslug : ∀ c ∈ slug.data, c ≠ '|') :
    (is_cookie_valid lib slug secret cv now = true →
      ∃ ts sg : List Char,
        split_char '|' cv.data = [slug.data, ts, sg] ∧
        py_isdigit ts = true ∧
        (now : Int) - (py_digits_to_nat ts : Int) ≤ (MAX_AGE_SECONDS : Int) ∧
        (⟨sg⟩ : String) = sign_cookie lib slug (⟨ts⟩ : String) secret) ∧
    (∀ hi : i < (sign_cookie lib slug (nat_repr t) secret).data.length,
      c' ≠ (sign_cookie lib slug (nat_repr t) secret).data.get ⟨i, hi⟩ →
      is_cookie_valid lib slug secret
        (slug ++ "|" ++ nat_repr t ++ "|"
          ++ (⟨(sign_cookie lib slug (nat_repr t) secret).data.set i c'⟩ : String)) now = false) :=
  ⟨cookie_sound lib slug secret cv now,
   fun hi hne => cookie_tamper lib slug secret t now i c' hslug hi hne⟩

/-- Witness for C3 at slug `/a`, secret `k`, a concrete valid cookie, and
a tampering of the first signature character. -/
theorem claim_C3_witness :
    (∃ ts sg : List Char,
        split_char '|' ("/a|5|f00d" : String).data = [("/a" : String).data, ts, sg] ∧
        py_isdigit ts = true ∧
        ((5 : Nat) : Int) - (py_digits_to_nat ts : Int) ≤ (MAX_AGE_SECONDS : Int) ∧
        (⟨sg⟩ : String) = sign_cookie lib_stub "/a" (⟨ts⟩ : String) "k") ∧
    is_cookie_valid lib_stub "/a" "k"
      ("/a" ++ "|" ++ nat_repr 5 ++ "|"
        ++ (⟨(sign_cookie lib_stub "/a" (nat_repr 5) "k").data.set 0 'x'⟩ : String)) 5 = false :=
  ⟨(claim_C3 lib_stub "/a" "k" "/a|5|f00d" 5 5 0 'x' (by decide)).1 (by decide),
   (claim_C3 lib_stub "/a" "k" "/a|5|f00d" 5 5 0 'x' (by decide)).2 (by decide) (by decide)⟩

/-- Claim C4 (counterexample): the claim asserts every decoded record has
`count ≥ 0`, but the stored raw value `"-7"` decodes (through the legacy
integer path) to a record with `count = -7`. -/
theorem claim_C4_counterexample :
    (parse_post_record (some "-7")).1.count = -7 ∧ (parse_post_record (some "-7")).1.count < 0 :=
  ⟨rfl, by decide⟩

/-- Claim C4 (amended): decoding is total and degrades to the default:
an absent raw value, a blank raw value, and a raw value that parses
neither as JSON nor as an integer all decode to the default record with
`count = 0` (the last with the migration flag set).  The original
`count ≥ 0` invariant does not hold: a stored value carrying a negative
integer (legacy or in a JSON object) decodes to that negative count, as
the counterexample shows. -/
theorem claim_C4_amended :
    parse_post_record none = (default_post_record 0, false) ∧
    (∀ s : String, py_strip s = "" → parse_post_record (some s) = (default_post_record 0, false)) ∧
    (∀ s : String, py_strip s ≠ "" → json_loads (py_strip s) = none →
      py_int_of_string (py_strip s) = none →
      parse_post_record (some s) = (default_post_record 0, true)) := by
  refine ⟨rfl, ?_, ?_⟩
  · intro s hs
    unfold parse_post_record
    dsimp only
    rw [hs]
    simp
  · intro s hs hj hi
    unfold parse_post_record
    dsimp only
    rw [if_neg hs, hj]
    dsimp only
    rw [hi]
    rfl

/-- Witness for the amended C4 on the corrupt stored value `"xx"`. -/
theorem claim_C4_witness :
    parse_post_record (some "xx") = (default_post_record 0, true) :=
  claim_C4_amended.2.2 "xx" (by decide) rfl rfl

theorem try_put_get_self (st : St) (k v : String) (hok : st.failKeys.contains k = false) :
    st_get (try_put st k v) k = some v := by
  unfold try_put st_put
  rw [hok]
  simp [st_get, List.find?_cons_of_pos]

/-- Claim C5: with the legacy bare-integer value `"7"` stored under a
slug's key (and that key writable), `_fetch_post_record` returns a record
with `count = 7`, the decode step reports `needs_migration = true`, and
the store afterwards holds the structured JSON record with `count = 7`
(timestamped with the current time). -/
theorem claim_C5 (st : St) (slug : String) (now : Nat)
    (hraw : st_get st (kv_key slug) = some "7")
    (hok : st.failKeys.contains (kv_key slug) = false) :
    (fetch_post_record st slug now).1 = ⟨7, "", "", "", (now : Int)⟩ ∧
    (parse_post_record (some "7")).2 = true ∧
    st_get (fetch_post_record st slug now).2 (kv_key slug)
      = some (json_dumps (record_to_json ⟨7, "", "", "", (now : Int)⟩)) := by
  have hp : parse_post_record (some "7") = (⟨7, "", "", "", 0⟩, true) := rfl
  simp only [fetch_post_record, hraw, hp]
  exact ⟨by trivial, by trivial, try_put_get_self st (kv_key slug) _ hok⟩

/-- Witness for C5: store holding `"7"` under `post:/a`, read at time 99. -/
theorem claim_C5_witness :
    (fetch_post_record ⟨[("post:/a", "7")], [], []⟩ "/a" 99).1 = ⟨7, "", "", "", 99⟩ ∧
    (parse_post_record (some "7")).2 = true ∧
    st_get (fetch_post_record ⟨[("post:/a", "7")], [], []⟩ "/a" 99).2 (kv_key "/a")
      = some (json_dumps (record_to_json ⟨7, "", "", "", 99⟩)) :=
  claim_C5 ⟨[("post:/a", "7")], [], []⟩ "/a" 99 rfl rfl


theorem popular_response_items_le {j : Json} {limit : Nat} {g s sk ix : Json}
    {items : List Json}
    (h : popular_response j limit = ⟨200, RespBody.popular g s sk ix items, none⟩) :
    items.length ≤ limit := by
  have hb := congrArg Resp.body h
  simp only [popular_response, RespBody.popular.injEq] at hb
  obtain ⟨-, -, -, -, hitems⟩ := hb
  rw [← hitems]
  exact List.length_take_le limit _

/-- Claim C10: when the `limit` query value of `GET /api/popular` is
absent (empty) or non-numeric, the effective limit defaults to 5, so any
response the handler returns carries at most five items, regardless of how
many the cached document holds. -/
theorem claim_C10 (lib : Stdlib) (env : Env) (io : RebuildIO) (st : St) (req : Req)
    (now : Nat) (g s sk ix : Json) (items : List Json)
    (hlim : py_int_of_string req.queryLimit = none)
    (hresp : (handle_popular lib env io st req now).1
      = some ⟨200, RespBody.popular g s sk ix items, none⟩) :
    items.length ≤ 5 := by
  have hclamp : (clamp_int (parse_int (some req.queryLimit) 5) 1 50).toNat = 5 := by
    simp [parse_int, hlim, clamp_int]
  unfold handle_popular at hresp
  rw [hclamp] at hresp
  dsimp only at hresp
  repeat' split at hresp
  all_goals dsimp only at hresp
  all_goals
    first
    | (rw [Option.some_inj] at hresp; exact popular_response_items_le hresp)
    | simp at hresp

/-- Witness for C10: a cached document with seven items served with a
non-numeric `limit` yields exactly the top five. -/
theorem claim_C10_witness :
    ([pop_item_to_json ⟨"/a", "/a", "/a/", "", 3⟩, pop_item_to_json ⟨"/b", "/b", "/b/", "", 3⟩,
      pop_item_to_json ⟨"/c", "/c", "/c/", "", 2⟩, pop_item_to_json ⟨"/d", "/d", "/d/", "", 2⟩,
      pop_item_to_json ⟨"/e", "/e", "/e/", "", 1⟩] : List Json).length ≤ 5 :=
  claim_C10 lib_stub env_nosecret io_none st_big (req_popular "abc") 0
    (Json.num 0) (Json.str "kv_list") (Json.num 7) (Json.num 7) _ rfl rfl

theorem merge_meta_count (r : PostRecord) (t p d : String) (n : Nat) :
    (merge_meta_into_record r t p d n).1.count = r.count := by
  unfold merge_meta_into_record
  dsimp only
  split_ifs <;> rfl

theorem fetch_count (st : St) (slug : String) (now : Nat) :
    (fetch_post_record st slug now).1.count
      = (parse_post_record (st_get st (kv_key slug))).1.count := by
  unfold fetch_post_record
  dsimp only
  split <;> rfl

/-- Claim C8: on the `NEW_VOTE` path, when the store write persisting the
incremented record fails (its key is in the failing set), the handler
still answers 200 with the in-memory updated count — the pre-increment
count plus one — with `upvoted = true` and a fresh cookie, rather than
propagating the failure or returning the pre-increment count.  (The proof
shows the response is computed from the in-memory record without
consulting the write's outcome, so the failure hypothesis is never even
needed.) -/
theorem claim_C8 (lib : Stdlib) (st : St) (req : Req) (secret : String) (now : Nat)
    (hval : validate_slug (post_slug req) = true)
    (hav : post_already_voted lib req (post_slug req) secret now = false)
    (_hfail : st.failKeys.contains (kv_key (post_slug req)) = true) :
    (handle_post lib st req secret now).1
      = ⟨200, RespBody.vote (post_slug req)
          ((parse_post_record (st_get st (kv_key (post_slug req)))).1.count + 1) true,
          some (build_cookie lib (post_slug req) secret now)⟩ := by
  unfold handle_post
  dsimp only
  rw [hval, hav]
  simp only [Bool.not_true, Bool.false_eq_true, if_false]
  rw [merge_meta_count]
  rw [fetch_count]

/-- Witness for C8: a record with count 2 whose key refuses writes; the
vote still answers count 3, upvoted, with a fresh cookie. -/
theorem claim_C8_witness :
    (handle_post lib_stub ⟨[("post:/a", "2")], ["post:/a"], []⟩ (req_vote "/a") "sec" 0).1
      = ⟨200, RespBody.vote "/a" 3 true, some (build_cookie lib_stub "/a" "sec" 0)⟩ :=
  (claim_C8 lib_stub ⟨[("post:/a", "2")], ["post:/a"], []⟩ (req_vote "/a") "sec" 0
    rfl rfl rfl).trans rfl

theorem resolve_cookie_secret_cases (env : Env) (st : St) :
    (resolve_cookie_secret env st).2 = st ∨
    (resolve_cookie_secret env st).2
      = ⟨("cookie_secret", env.genToken) :: st.store, st.failKeys,
         st.writes ++ [("cookie_secret", env.genToken)]⟩ := by
  unfold resolve_cookie_secret
  dsimp only
  repeat' split
  all_goals try exact Or.inl rfl
  all_goals rename_i heq
  all_goals unfold st_put at heq
  all_goals split at heq
  all_goals first
    | (right; cases heq; rfl)
    | exact absurd heq (by simp)

theorem handle_get_invalid (lib : Stdlib) (st : St) (req : Req) (secret : String) (now : Nat)
    (h : validate_slug req.querySlug = false) :
    handle_get lib st req secret now
      = (error_response "slug must start with '/' and not be empty" 400, st) := by
  unfold handle_get
  dsimp only
  rw [h]
  rfl

theorem handle_post_invalid (lib : Stdlib) (st : St) (req : Req) (secret : String) (now : Nat)
    (h : validate_slug (post_slug req) = false) :
    handle_post lib st req secret now
      = (error_response "slug must start with '/' and not be empty" 400, st) := by
  unfold handle_post
  dsimp only
  rw [h]
  rfl

/-- Claim C1 (amended): for a vote or info request whose slug is empty or
does not start with `/` — given the KV binding is present and a cookie
secret resolves — the worker answers the 400 validation error, and the
only write that can happen while handling the request is the one-time
persistence of a freshly generated secret under the `cookie_secret` key
during secret resolution (which runs before slug validation and does not
depend on the slug); every other key is untouched.  The unamended "no
write to any key" is refuted by the counterexample. -/
theorem claim_C1_amended (lib : Stdlib) (env : Env) (io : RebuildIO) (st : St) (req : Req)
    (now : Nat)
    (hkv : env.hasKV = true)
    (hw : st.writes = [])
    (hsecret : (resolve_cookie_secret env st).1 ≠ "")
    (hroute : (py_upper req.method = "GET" ∧ req.path = "/api/upvote-info"
                ∧ validate_slug req.querySlug = false)
            ∨ (py_upper req.method = "POST" ∧ req.path = "/api/upvote"
                ∧ validate_slug (post_slug req) = false)) :
    (worker_fetch lib env io st req now).1
      = some (error_response "slug must start with '/' and not be empty" 400) ∧
    (∀ w ∈ (worker_fetch lib env io st req now).2.writes, w.1 = "cookie_secret") ∧
    (∀ k, k ≠ "cookie_secret" →
      st_get (worker_fetch lib env io st req now).2 k = st_get st k) := by
  have hfinal : worker_fetch lib env io st req now
      = (some (error_response "slug must start with '/' and not be empty" 400),
         (resolve_cookie_secret env st).2) := by
    unfold worker_fetch
    dsimp only
    rcases hroute with ⟨hm, hp, hv⟩ | ⟨hm, hp, hv⟩
    · rw [hm, hp, hkv]
      simp only [Bool.not_true, Bool.false_eq_true, if_false]
      rw [if_neg (by decide)]
      rw [if_neg hsecret]
      rw [if_pos (by decide)]
      rw [handle_get_invalid lib _ req _ now hv]
    · rw [hm, hp, hkv]
      simp only [Bool.not_true, Bool.false_eq_true, if_false]
      rw [if_neg (by decide)]
      rw [if_neg hsecret]
      rw [if_neg (by decide)]
      rw [if_pos (by decide)]
      rw [handle_post_invalid lib _ req _ now hv]
  rw [hfinal]
  rcases resolve_cookie_secret_cases env st with hc | hc <;> rw [hc]
  · refine ⟨rfl, ?_, fun k _ => rfl⟩
    rw [hw]
    intro w hwm
    simp at hwm
  · refine ⟨rfl, ?_, ?_⟩
    · rw [hw]
      intro w hwm
      simp at hwm
      rw [hwm]
    · intro k hk
      unfold st_get
      rw [List.find?_cons_of_neg]
      simp [hk.symm]

/-- Claim C1 (counterexample): with no configured secret and an empty
store, an info request with an empty slug is answered 400 — but handling
it does write to the store: secret resolution persists the freshly
generated token under `cookie_secret`.  So "no write to any key is
performed while handling that request" is false as stated. -/
theorem claim_C1_counterexample :
    (worker_fetch lib_stub env_nosecret io_none st_empty (req_info "") 0).1
      = some (error_response "slug must start with '/' and not be empty" 400) ∧
    (worker_fetch lib_stub env_nosecret io_none st_empty (req_info "") 0).2.writes
      = [("cookie_secret", "tok")] :=
  ⟨rfl, rfl⟩

/-- Witness for the amended C1: configured secret, empty store, info
request with empty slug. -/
theorem claim_C1_witness :
    (worker_fetch lib_stub ⟨some "sek", none, true, false, "tok"⟩ io_none st_empty
        (req_info "") 0).1
      = some (error_response "slug must start with '/' and not be empty" 400) ∧
    (∀ w ∈ (worker_fetch lib_stub ⟨some "sek", none, true, false, "tok"⟩ io_none st_empty
        (req_info "") 0).2.writes, w.1 = "cookie_secret") ∧
    (∀ k, k ≠ "cookie_secret" →
      st_get (worker_fetch lib_stub ⟨some "sek", none, true, false, "tok"⟩ io_none st_empty
        (req_info "") 0).2 k = st_get st_empty k) :=
  claim_C1_amended lib_stub ⟨some "sek", none, true, false, "tok"⟩ io_none st_empty
    (req_info "") 0 rfl rfl (by decide) (Or.inl ⟨rfl, rfl, rfl⟩)


theorem rebuild_scan_items_pos (now : Nat) : ∀ (cs : List String) (st : St) (it : PopItem),
    it ∈ (rebuild_scan now st cs).1 → 0 < it.upvote_count
  | [], st, it, h => by simp [rebuild_scan] at h
  | c :: rest, st, it, h => by
    unfold rebuild_scan at h
    dsimp only at h
    split at h
    · exact rebuild_scan_items_pos now rest _ it h
    · rename_i hc
      rcases List.mem_cons.mp h with h1 | h2
      · subst h1
        have hcount : (mk_pop_item c (fetch_post_record st c now).1).upvote_count
            = (fetch_post_record st c now).1.count := rfl
        rw [hcount]
        omega
      · exact rebuild_scan_items_pos now rest _ it h2

/-- Claim C6: every item list `_rebuild_popular_cache` produces contains
no item with a non-positive count, and is sorted in descending
lexicographic order of `(upvote_count, _date_key(dateISO))` — count is the
primary key and the date key (`year*10000 + month*100 + day`, `0` for
absent or malformed dates) the tie-break. -/
theorem claim_C6 (lib : Stdlib) (env : Env) (io : RebuildIO) (st : St)
    (so : Option String) (now : Nat) (payload : PopPayload)
    (h : (rebuild_popular_cache lib env io st so now).1 = some payload) :
    (∀ it ∈ payload.items, 0 < it.upvote_count) ∧ payload.items.Pairwise pop_rel := by
  unfold rebuild_popular_cache at h
  dsimp only at h
  split at h
  · simp at h
  · rename_i st' heq
    simp only [Option.some.injEq] at h
    subst h
    dsimp only
    constructor
    · intro it hit
      have h1 : it ∈ List.insertionSort pop_rel
          (rebuild_scan now st (dedup_keep (rebuild_candidate_slugs lib io st so).2)).1 :=
        (List.take_sublist _ _).subset hit
      have h2 := (List.perm_insertionSort pop_rel _).mem_iff.mp h1
      exact rebuild_scan_items_pos now _ _ it h2
    · exact List.Pairwise.sublist (List.take_sublist _ _)
        (List.sorted_insertionSort pop_rel _)


/-- Witness for C6: a concrete rebuild over four candidates sorts the
three positive-count items by count then date, descending. -/
theorem claim_C6_witness :
    (∀ it ∈ (⟨0, "kv_list", 4, 3,
        [⟨"/b", "/b", "/b/", "", 3⟩, ⟨"/c", "/c", "/c/", "2024-03-01", 2⟩,
         ⟨"/a", "/a", "/a/", "2024-01-05", 2⟩]⟩ : PopPayload).items, 0 < it.upvote_count) ∧
    (⟨0, "kv_list", 4, 3,
        [⟨"/b", "/b", "/b/", "", 3⟩, ⟨"/c", "/c", "/c/", "2024-03-01", 2⟩,
         ⟨"/a", "/a", "/a/", "2024-01-05", 2⟩]⟩ : PopPayload).items.Pairwise pop_rel :=
  claim_C6 lib_stub env_nosecret io_keys st_recs none 0 _ rfl

theorem fetch_preserves (st : St) (slug : String) (now : Nat) (k : String)
    (hk : k ≠ kv_key slug) :
    st_get (fetch_post_record st slug now).2 k = st_get st k := by
  unfold fetch_post_record
  dsimp only
  split
  · exact try_put_get_ne st _ _ k hk
  · rfl

theorem fetch_failKeys (st : St) (slug : String) (now : Nat) :
    (fetch_post_record st slug now).2.failKeys = st.failKeys := by
  unfold fetch_post_record
  dsimp only
  split
  · exact try_put_failKeys st _ _
  · rfl

theorem rebuild_scan_get_preserves (now : Nat) : ∀ (cs : List String) (st : St) (k : String),
    (∀ s ∈ cs, k ≠ kv_key s) →
    st_get (rebuild_scan now st cs).2.2 k = st_get st k
  | [], st, k, _ => rfl
  | c :: rest, st, k, h => by
    unfold rebuild_scan
    dsimp only
    have hrest : ∀ s ∈ rest, k ≠ kv_key s := fun s hs => h s (List.mem_cons_of_mem c hs)
    have hfetch := fetch_preserves st c now k (h c (List.mem_cons_self c rest))
    split
    · rw [rebuild_scan_get_preserves now rest _ k hrest, hfetch]
    · dsimp only
      rw [rebuild_scan_get_preserves now rest _ k hrest, hfetch]

theorem rebuild_scan_failKeys (now : Nat) : ∀ (cs : List String) (st : St),
    (rebuild_scan now st cs).2.2.failKeys = st.failKeys
  | [], st => rfl
  | c :: rest, st => by
    unfold rebuild_scan
    dsimp only
    split
    · rw [rebuild_scan_failKeys now rest _, fetch_failKeys]
    · dsimp only
      rw [rebuild_scan_failKeys now rest _, fetch_failKeys]

theorem rebuild_scan_ups (now : Nat) : ∀ (cs : List String) (st st₀ : St),
    cs.Nodup →
    (∀ s ∈ cs, st_get st (kv_key s) = st_get st₀ (kv_key s)) →
    (rebuild_scan now st cs).2.1
      = cs.filter (fun s => decide (0 < (parse_post_record (st_get st₀ (kv_key s))).1.count))
  | [], _, _, _, _ => rfl
  | c :: rest, st, st₀, hnd, hpre => by
    unfold rebuild_scan
    dsimp only
    have hc : (fetch_post_record st c now).1.count
        = (parse_post_record (st_get st₀ (kv_key c))).1.count := by
      rw [fetch_count, hpre c (List.mem_cons_self c rest)]
    have hpre' : ∀ s ∈ rest,
        st_get (fetch_post_record st c now).2 (kv_key s) = st_get st₀ (kv_key s) := by
      intro s hs
      have hne : kv_key s ≠ kv_key c :=
        fun hk => (List.nodup_cons.mp hnd).1 (kv_key_inj hk ▸ hs)
      rw [fetch_preserves st c now _ hne, hpre s (List.mem_cons_of_mem c hs)]
    have ih := rebuild_scan_ups now rest (fetch_post_record st c now).2 st₀
      (List.nodup_cons.mp hnd).2 hpre'
    rw [List.filter_cons]
    split
    · rename_i hle
      have hpc : decide (0 < (parse_post_record (st_get st₀ (kv_key c))).1.count) = false := by
        rw [← hc]
        simpa using hle
      rw [hpc]
      simpa using ih
    · rename_i hgt
      have hpc : decide (0 < (parse_post_record (st_get st₀ (kv_key c))).1.count) = true := by
        rw [← hc]
        simpa using hgt
      rw [hpc]
      dsimp only
      simpa using ih

theorem dedup_aux_subset : ∀ (seen l : List String) (x : String),
    x ∈ dedup_aux seen l → x ∈ l ∧ x ∉ seen
  | seen, [], x, h => by simp [dedup_aux] at h
  | seen, y :: ys, x, h => by
    unfold dedup_aux at h
    split at h
    · have := dedup_aux_subset seen ys x h
      exact ⟨List.mem_cons_of_mem y this.1, this.2⟩
    · rename_i hy
      rcases List.mem_cons.mp h with h1 | h2
      · subst h1
        exact ⟨List.mem_cons_self x ys, fun hx => hy (by simpa using List.elem_eq_true_of_mem hx)⟩
      · have := dedup_aux_subset (y :: seen) ys x h2
        exact ⟨List.mem_cons_of_mem y this.1,
          fun hx => this.2 (List.mem_cons_of_mem y hx)⟩

theorem dedup_aux_nodup : ∀ (seen l : List String), (dedup_aux seen l).Nodup
  | _, [] => List.nodup_nil
  | seen, y :: ys => by
    unfold dedup_aux
    split
    · exact dedup_aux_nodup seen ys
    · rw [List.nodup_cons]
      refine ⟨fun hy => ?_, dedup_aux_nodup (y :: seen) ys⟩
      exact (dedup_aux_subset (y :: seen) ys y hy).2 (List.mem_cons_self y seen)

theorem dedup_keep_nodup (l : List String) : (dedup_keep l).Nodup :=
  dedup_aux_nodup [] l

theorem store_slug_index_get (st : St) (slugs : List String)
    (hok : st.failKeys.contains POPULAR_SLUG_INDEX_KEY = false) :
    st_get (store_slug_index st slugs) POPULAR_SLUG_INDEX_KEY
      = some (json_dumps (Json.arr ((clean_slugs slugs).map Json.str))) := by
  unfold store_slug_index
  exact try_put_get_self st _ _ hok

/-- Claim C7 (amended): after `_rebuild_popular_cache`, when at least one
candidate slug had a positive-count record, the stored Slug Index is
overwritten with the sanitized (re-normalized, validated, de-duplicated)
form of exactly the positive-count candidate slugs in order (for already
canonical slugs the sanitization is the identity); when no candidate had a
positive count, the Slug Index is left unchanged — it is not overwritten
with an empty list, because the worker guards the overwrite with
`if upvoted_slugs:`.  The original claim's empty-list case is refuted by
the counterexample. -/
theorem claim_C7_amended (lib : Stdlib) (env : Env) (io : RebuildIO) (st : St)
    (so : Option String) (now : Nat) :
    let ups := (dedup_keep (rebuild_candidate_slugs lib io st so).2).filter
        (fun s => decide (0 < (parse_post_record (st_get st (kv_key s))).1.count))
    (ups = [] →
      st_get (rebuild_popular_cache lib env io st so now).2 POPULAR_SLUG_INDEX_KEY
        = st_get st POPULAR_SLUG_INDEX_KEY) ∧
    (ups ≠ [] →
      st.failKeys.contains POPULAR_SLUG_INDEX_KEY = false →
      st_get (rebuild_popular_cache lib env io st so now).2 POPULAR_SLUG_INDEX_KEY
        = some (json_dumps (Json.arr ((clean_slugs ups).map Json.str)))) := by
  intro ups
  have hups : (rebuild_scan now st (dedup_keep (rebuild_candidate_slugs lib io st so).2)).2.1
      = ups :=
    rebuild_scan_ups now _ st st (dedup_keep_nodup _) (fun _ _ => rfl)
  have hscanpre : st_get
      (rebuild_scan now st (dedup_keep (rebuild_candidate_slugs lib io st so).2)).2.2
      POPULAR_SLUG_INDEX_KEY = st_get st POPULAR_SLUG_INDEX_KEY :=
    rebuild_scan_get_preserves now _ st POPULAR_SLUG_INDEX_KEY
      (fun s _ => (kv_key_ne_index s).symm)
  constructor
  · intro hempty
    have hisEmpty : (rebuild_scan now st
        (dedup_keep (rebuild_candidate_slugs lib io st so).2)).2.1.isEmpty = true := by
      rw [hups, hempty]
      rfl
    unfold rebuild_popular_cache
    dsimp only
    rw [hisEmpty]
    simp only [if_true]
    cases hput : st_put
        (rebuild_scan now st (dedup_keep (rebuild_candidate_slugs lib io st so).2)).2.2
        POPULAR_CACHE_KEY (json_dumps (pop_payload_to_json
          ⟨(now : Int), (rebuild_candidate_slugs lib io st so).1,
            (dedup_keep (rebuild_candidate_slugs lib io st so).2).length,
            (rebuild_scan now st (dedup_keep (rebuild_candidate_slugs lib io st so).2)).2.1.length,
            (List.insertionSort pop_rel
              (rebuild_scan now st (dedup_keep (rebuild_candidate_slugs lib io st so).2)).1).take
              (clamp_int (parse_int env.popularCacheMax POPULAR_CACHE_MAX_DEFAULT) 1 200).toNat⟩)) with
    | none =>
      dsimp only
      exact hscanpre
    | some st₂ =>
      dsimp only
      rw [st_put_get_ne hput (by decide)]
      exact hscanpre
  · intro hne hfail
    have hisEmpty : (rebuild_scan now st
        (dedup_keep (rebuild_candidate_slugs lib io st so).2)).2.1.isEmpty = false := by
      rw [hups]
      cases hc : ups with
      | nil => exact absurd hc hne
      | cons a l => rfl
    unfold rebuild_popular_cache
    dsimp only
    rw [hisEmpty]
    simp only [Bool.false_eq_true, if_false]
    have hsfk : (rebuild_scan now st
        (dedup_keep (rebuild_candidate_slugs lib io st so).2)).2.2.failKeys.contains
        POPULAR_SLUG_INDEX_KEY = false := by
      rw [rebuild_scan_failKeys]
      exact hfail
    have hstore := store_slug_index_get
      (rebuild_scan now st (dedup_keep (rebuild_candidate_slugs lib io st so).2)).2.2
      (rebuild_scan now st (dedup_keep (rebuild_candidate_slugs lib io st so).2)).2.1 hsfk
    have hstorefk : (store_slug_index
        (rebuild_scan now st (dedup_keep (rebuild_candidate_slugs lib io st so).2)).2.2
        (rebuild_scan now st (dedup_keep (rebuild_candidate_slugs lib io st so).2)).2.1).failKeys
          = st.failKeys := by
      unfold store_slug_index
      rw [try_put_failKeys, rebuild_scan_failKeys]
    cases hput : st_put
        (store_slug_index
          (rebuild_scan now st (dedup_keep (rebuild_candidate_slugs lib io st so).2)).2.2
          (rebuild_scan now st (dedup_keep (rebuild_candidate_slugs lib io st so).2)).2.1)
        POPULAR_CACHE_KEY (json_dumps (pop_payload_to_json
          ⟨(now : Int), (rebuild_candidate_slugs lib io st so).1,
            (dedup_keep (rebuild_candidate_slugs lib io st so).2).length,
            (rebuild_scan now st (dedup_keep (rebuild_candidate_slugs lib io st so).2)).2.1.length,
            (List.insertionSort pop_rel
              (rebuild_scan now st (dedup_keep (rebuild_candidate_slugs lib io st so).2)).1).take
              (clamp_int (parse_int env.popularCacheMax POPULAR_CACHE_MAX_DEFAULT) 1 200).toNat⟩)) with
    | none =>
      dsimp only
      rw [hstore, hups]
    | some st₂ =>
      dsimp only
      rw [st_put_get_ne hput (by decide)]
      rw [hstore, hups]

/-- Claim C7 (counterexample): with the index holding `["/a"]` and no
positive-count candidate, the claim says rebuild overwrites the index with
the empty list; the worker instead leaves the index untouched (the
overwrite is guarded by `if upvoted_slugs:`). -/
theorem claim_C7_counterexample :
    (dedup_keep (rebuild_candidate_slugs lib_stub io_none st_idx none).2).filter
        (fun s => decide (0 < (parse_post_record (st_get st_idx (kv_key s))).1.count)) = [] ∧
    st_get (rebuild_popular_cache lib_stub env_nosecret io_none st_idx none 0).2
        POPULAR_SLUG_INDEX_KEY = some "[\"/a\"]" ∧
    some "[\"/a\"]" ≠ some (json_dumps (Json.arr ([] : List Json))) :=
  ⟨rfl, rfl, by decide⟩

/-- Witness for the amended C7: three positive-count candidates out of
four; the index is overwritten with their cleaned list. -/
theorem claim_C7_witness :
    st_get (rebuild_popular_cache lib_stub env_nosecret io_keys st_recs none 0).2
        POPULAR_SLUG_INDEX_KEY
      = some (json_dumps (Json.arr ((clean_slugs
          ((dedup_keep (rebuild_candidate_slugs lib_stub io_keys st_recs none).2).filter
            (fun s => decide (0 < (parse_post_record (st_get st_recs (kv_key s))).1.count)))).map
          Json.str))) :=
  (claim_C7_amended lib_stub env_nosecret io_keys st_recs none 0).2 (by decide) rfl

theorem drop_right_while_getLast (p : Char → Bool) (l : List Char) :
    (drop_right_while p l).getLast? = none ∨
    ∃ c, (drop_right_while p l).getLast? = some c ∧ p c = false := by
  unfold drop_right_while
  rw [List.getLast?_reverse]
  cases hc : (l.reverse.dropWhile p).head? with
  | none => exact Or.inl rfl
  | some c =>
    right
    refine ⟨c, rfl, ?_⟩
    have := List.head?_dropWhile_not p l.reverse
    rw [hc] at this
    exact this

theorem rstrip_slashes_last (t : String) :
    (rstrip_slashes t).data.getLast? ≠ some '/' := by
  intro hlast
  unfold rstrip_slashes at hlast
  rcases drop_right_while_getLast (fun c => c = '/') t.data with hn | ⟨c, hsome, hpc⟩
  · rw [hn] at hlast
    exact Option.noConfusion hlast
  · rw [hsome] at hlast
    have hc : c = '/' := Option.some.injEq _ _ ▸ hlast
    rw [hc] at hpc
    simp at hpc

theorem validate_slug_ne_empty {x : String} (h : validate_slug x = true) : x ≠ "" := by
  intro hx
  subst hx
  simp [validate_slug] at h

theorem normalize_slug_shape (s : String)
    (hval : validate_slug (normalize_slug s) = true) :
    normalize_slug s = "/" ∨ (normalize_slug s).data.getLast? ≠ some '/' := by
  unfold normalize_slug at hval ⊢
  dsimp only at hval ⊢
  by_cases h1 : py_strip s = ""
  · rw [if_pos h1] at hval
    exact absurd hval (by decide)
  · rw [if_neg h1] at hval ⊢
    by_cases h2 : (if str_starts_with (py_strip s) "/" then py_strip s
        else "/" ++ py_strip s) = "/"
    · rw [if_pos h2]
      exact Or.inl h2
    · rw [if_neg h2]
      exact Or.inr (rstrip_slashes_last _)

theorem clean_slugs_shape (l : List String) (x : String) (h : x ∈ clean_slugs l) :
    x ≠ "" ∧ str_starts_with x "/" = true ∧ (x = "/" ∨ x.data.getLast? ≠ some '/') := by
  have h1 := (dedup_aux_subset [] _ x h).1
  rcases List.mem_filterMap.mp h1 with ⟨y, -, hy⟩
  dsimp only at hy
  split at hy
  · rename_i hv
    have hx : normalize_slug y = x := Option.some.injEq _ _ ▸ hy
    subst hx
    refine ⟨validate_slug_ne_empty hv, ?_, normalize_slug_shape y hv⟩
    have := Bool.and_eq_true _ _ ▸ hv
    exact this.2
  · exact Option.noConfusion hy

theorem store_slug_index_cases (st : St) (slugs : List String) :
    store_slug_index st slugs = st ∨
    st_get (store_slug_index st slugs) POPULAR_SLUG_INDEX_KEY
      = some (json_dumps (Json.arr ((clean_slugs slugs).map Json.str))) := by
  unfold store_slug_index try_put
  cases hput : st_put st POPULAR_SLUG_INDEX_KEY
      (json_dumps (Json.arr ((clean_slugs slugs).map Json.str))) with
  | none => exact Or.inl rfl
  | some st' =>
    right
    simp only [Option.getD_some]
    exact st_put_get_self hput

/-- Claim C9: every slug held by the Slug Index after `_add_slug_to_index`
is in normalized form — nonempty, starting with `/`, and with trailing
slashes stripped unless the slug is exactly `/` (the add either leaves the
index key unchanged or stores a list all of whose members have that
shape); and consequently a vote on the trailing-slash slug `/post/x/`
stores the vote record under the un-normalized key `post:/post/x/` while
the index receives the normalized `/post/x`. -/
theorem claim_C9 :
    (∀ (st : St) (slug : String),
      st_get (add_slug_to_index st slug) POPULAR_SLUG_INDEX_KEY
          = st_get st POPULAR_SLUG_INDEX_KEY ∨
      ∃ l : List String,
        st_get (add_slug_to_index st slug) POPULAR_SLUG_INDEX_KEY
          = some (json_dumps (Json.arr (l.map Json.str))) ∧
        ∀ x ∈ l, x ≠ "" ∧ str_starts_with x "/" = true ∧
          (x = "/" ∨ x.data.getLast? ≠ some '/')) ∧
    (st_get (handle_post lib_stub st_empty (req_vote "/post/x/") "sec" 0).2
        (kv_key "/post/x/") = some (json_dumps (record_to_json ⟨1, "", "", "", 0⟩)) ∧
      st_get (handle_post lib_stub st_empty (req_vote "/post/x/") "sec" 0).2
        POPULAR_SLUG_INDEX_KEY = some (json_dumps (Json.arr [Json.str "/post/x"]))) := by
  refine ⟨?_, rfl, rfl⟩
  intro st slug
  unfold add_slug_to_index
  dsimp only
  split_ifs with h1 h2 h3
  · exact Or.inl rfl
  · exact Or.inl rfl
  · rcases store_slug_index_cases st
        ((load_slug_index st ++ [normalize_slug slug]).drop
          ((load_slug_index st ++ [normalize_slug slug]).length - POPULAR_SLUG_INDEX_MAX))
      with hs | hs
    · rw [hs]
      exact Or.inl rfl
    · exact Or.inr ⟨_, hs, fun x hx => clean_slugs_shape _ x hx⟩
  · rcases store_slug_index_cases st (load_slug_index st ++ [normalize_slug slug])
      with hs | hs
    · rw [hs]
      exact Or.inl rfl
    · exact Or.inr ⟨_, hs, fun x hx => clean_slugs_shape _ x hx⟩

/-- Witness for C9: applies the universal part at a concrete store and slug. -/
theorem claim_C9_witness :
    st_get (add_slug_to_index st_empty "/post/x/") POPULAR_SLUG_INDEX_KEY
        = st_get st_empty POPULAR_SLUG_INDEX_KEY ∨
    ∃ l : List String,
      st_get (add_slug_to_index st_empty "/post/x/") POPULAR_SLUG_INDEX_KEY
        = some (json_dumps (Json.arr (l.map Json.str))) ∧
      ∀ x ∈ l, x ≠ "" ∧ str_starts_with x "/" = true ∧
        (x = "/" ∨ x.data.getLast? ≠ some '/') :=
  claim_C9.1 st_empty "/post/x/"
